import Mathlib

/-!
Shallow embedding of the pinocchio-complex instruction dispatcher
(src/pinocchio-complex/lib.rs) and its per-opcode handler functions
(src/pinocchio-complex/system/*.rs, src/pinocchio-complex/token/*.rs).

Modelling conventions:
* Byte buffers and addresses are lists of natural numbers; a genuine byte
  is a value below 256, and claims that depend on byte range carry that
  hypothesis explicitly.
* Rust slice indexing and the unchecked 32-byte pointer reinterpretations
  are modelled in the Option monad: a read outside the buffer or account
  list yields none (the value a panic or out-of-bounds read would take),
  so totality of the dispatcher is the statement that it never returns none.
* The external capability-invocation primitive (the invoke_signed call at
  the tail of every handler) is an explicit parameter of type Oracle; the
  dispatcher records the single invocation it makes (if any) in a trace,
  so that the claims about when the primitive is reached and when account
  state can change are statable.
* The ProgramError values mirror the pinocchio error codes the source
  uses: the dispatcher encodes the empty-instruction, unknown-opcode,
  payload-too-short and invalid-field-value failures of the design
  taxonomy all as invalidInstructionData, while the handlers use
  notEnoughAccountKeys, missingRequiredSignature and invalidAccountData;
  custom covers every other (downstream) error code.
-/

namespace Pinocchio

/-- Account handle as exposed to the program: capability flags, address,
lamport balance and data region (the dispatcher only reads the flags and
the address). Mirrors pinocchio AccountView. -/
structure AccountView where
  is_signer : Bool
  is_writable : Bool
  address : List Nat
  lamports : Nat
  account_data : List Nat
deriving DecidableEq, Repr

abbrev Accounts := List AccountView

/-- Error codes used by the source (pinocchio ProgramError variants);
custom stands for every other code a downstream primitive may report. -/
inductive ProgramError where
  | invalidInstructionData
  | notEnoughAccountKeys
  | missingRequiredSignature
  | invalidAccountData
  | custom (code : Nat)
deriving DecidableEq, Repr

/-- Authority selector for the set-authority opcode, mirroring
pinocchio_token AuthorityType. -/
inductive AuthorityType where
  | mintTokens
  | freezeAccount
  | accountOwner
  | closeAccount
deriving DecidableEq, Repr

/-- Authorization proof (seed path and bump byte) as passed to
invoke_signed; the dispatcher always passes the empty list. -/
structure Signer where
  seeds : List (List Nat)
  bump : Nat
deriving DecidableEq, Repr

/-- One fully decoded invocation of the external primitive: one
constructor per instruction struct built by a handler before its
invoke_signed or invoke call. -/
inductive Invocation where
  | assignIx (account : AccountView) (owner : List Nat)
  | transferIx (source dest : AccountView) (lamports : Nat)
  | createAccountIx (funding newAccount : AccountView) (lamports space : Nat)
      (owner : List Nat)
  | allocateIx (account : AccountView) (space : Nat)
  | advanceNonceIx (account blockhashes authority : AccountView)
  | withdrawNonceIx (account recipient blockhashes rent authority : AccountView)
      (lamports : Nat)
  | initNonceIx (account blockhashes rent : AccountView) (authority : List Nat)
  | authorizeNonceIx (account authority : AccountView) (newAuthority : List Nat)
  | updateNonceIx (account : AccountView)
  | initMintIx (mint rent : AccountView) (decimals : Nat)
      (mintAuthority : List Nat) (freezeAuthority : Option (List Nat))
  | initAccountIx (account mint owner rent : AccountView)
  | tokenTransferIx (source dest authority : AccountView) (amount : Nat)
  | approveIx (source delegate authority : AccountView) (amount : Nat)
  | revokeIx (source authority : AccountView)
  | setAuthorityIx (account authority : AccountView)
      (authorityType : AuthorityType) (newAuthority : Option (List Nat))
  | mintToIx (mint account authority : AccountView) (amount : Nat)
  | burnIx (account mint authority : AccountView) (amount : Nat)
  | closeAccountIx (account destination authority : AccountView)
  | freezeIx (account mint authority : AccountView)
  | thawIx (account mint authority : AccountView)
  | transferCheckedIx (source mint dest authority : AccountView)
      (amount decimals : Nat)
  | approveCheckedIx (source mint delegate authority : AccountView)
      (amount decimals : Nat)
  | mintToCheckedIx (mint account authority : AccountView)
      (amount decimals : Nat)
  | burnCheckedIx (account mint authority : AccountView)
      (amount decimals : Nat)
  | syncNativeIx (account : AccountView)
deriving DecidableEq, Repr

/-- The external capability-invocation primitive: given the decoded
invocation, the authorization proofs and the current account state, it
returns its result and the (possibly mutated) account state. It is a
free parameter of the embedding. -/
abbrev Oracle := Invocation → List Signer → Accounts → Except ProgramError Unit × Accounts

/-- Result of one dispatch: the program result, the trace of invocations
of the external primitive made on the way (the source makes at most
one), and the final account state. -/
abbrev DispatchOut := Except ProgramError Unit × List Invocation × Accounts

/-- Record of one call of the external primitive: runs the oracle and
logs the invocation in the trace. -/
def runInvoke (invoke : Oracle) (ix : Invocation) (signers : List Signer)
    (accounts : Accounts) : DispatchOut :=
  ((invoke ix signers accounts).1, [ix], (invoke ix signers accounts).2)

/-- Little-endian value of a byte list, as computed by u64 from_le_bytes
on its 8 bytes. -/
def u64FromLeBytes (l : List Nat) : Nat :=
  l.foldr (fun b acc => b + 256 * acc) 0

/-- The 8 little-endian bytes of a 64-bit value, as produced by u64
to_le_bytes. -/
def u64ToLeBytes (x : Nat) : List Nat :=
  [x % 256, x / 256 % 256, x / 256 ^ 2 % 256, x / 256 ^ 3 % 256,
   x / 256 ^ 4 % 256, x / 256 ^ 5 % 256, x / 256 ^ 6 % 256, x / 256 ^ 7 % 256]

/-- Model of the data[..8] slice followed by try_into and u64
from_le_bytes: none when the slice would panic (fewer than 8 bytes). -/
def u64Read (data : List Nat) : Option Nat :=
  if 8 ≤ data.length then some (u64FromLeBytes (data.take 8)) else none

/-- Model of the unchecked 32-byte pointer reinterpretation of a payload
range as an Address: none when the 32 bytes starting at off are not all
inside the buffer. -/
def read32 (data : List Nat) (off : Nat) : Option (List Nat) :=
  if off + 32 ≤ data.length then some ((data.drop off).take 32) else none

/-- Translation of process_assign (src/pinocchio-complex/system/assign.rs). -/
def process_assign (invoke : Oracle) (accounts : Accounts) (owner : List Nat)
    (signers : List Signer) : Option DispatchOut :=
  if accounts.isEmpty then
    pure (Except.error ProgramError.notEnoughAccountKeys, [], accounts)
  else do
    let assigned_account ← accounts[0]?
    if !assigned_account.is_signer then
      pure (Except.error ProgramError.missingRequiredSignature, [], accounts)
    else
      pure (runInvoke invoke (Invocation.assignIx assigned_account owner) signers accounts)

/-- Translation of process_transfer
(src/pinocchio-complex/system/transfer_lamports.rs). -/
def process_transfer (invoke : Oracle) (accounts : Accounts) (lamports : Nat)
    (signers : List Signer) : Option DispatchOut :=
  if accounts.length < 2 then
    pure (Except.error ProgramError.notEnoughAccountKeys, [], accounts)
  else do
    let from_account ← accounts[0]?
    let to_account ← accounts[1]?
    if !from_account.is_signer then
      pure (Except.error ProgramError.missingRequiredSignature, [], accounts)
    else if !from_account.is_writable then
      pure (Except.error ProgramError.invalidAccountData, [], accounts)
    else if !to_account.is_writable then
      pure (Except.error ProgramError.invalidAccountData, [], accounts)
    else
      pure (runInvoke invoke (Invocation.transferIx from_account to_account lamports)
        signers accounts)

/-- Translation of process_create_account
(src/pinocchio-complex/system/create_account.rs). -/
def process_create_account (invoke : Oracle) (accounts : Accounts)
    (lamports space : Nat) (owner : List Nat) (signers : List Signer) :
    Option DispatchOut :=
  if accounts.length < 2 then
    pure (Except.error ProgramError.notEnoughAccountKeys, [], accounts)
  else do
    let funding_account ← accounts[0]?
    let new_account ← accounts[1]?
    if !funding_account.is_signer || !new_account.is_signer then
      pure (Except.error ProgramError.missingRequiredSignature, [], accounts)
    else
      pure (runInvoke invoke
        (Invocation.createAccountIx funding_account new_account lamports space owner)
        signers accounts)

/-- Translation of process_allocate (src/pinocchio-complex/system/allocate.rs). -/
def process_allocate (invoke : Oracle) (accounts : Accounts) (space : Nat)
    (signers : List Signer) : Option DispatchOut :=
  if accounts.isEmpty then
    pure (Except.error ProgramError.notEnoughAccountKeys, [], accounts)
  else do
    let allocate_account ← accounts[0]?
    if !allocate_account.is_signer then
      pure (Except.error ProgramError.missingRequiredSignature, [], accounts)
    else
      pure (runInvoke invoke (Invocation.allocateIx allocate_account space)
        signers accounts)

/-- Modelled from the spec: process_advance_nonce_account is declared and
dispatched in lib.rs but its source file is absent from src. Modelled per
the generic dispatcher algorithm of the spec (account-count check first
with NotEnoughAccounts, then capability checks, then the invocation);
the nonce family pattern of the repository fixes the account list as
nonce account (writable), recent-blockhashes sysvar, nonce authority
(signer); the spec does not state this minimum count, taken here as 3. -/
def process_advance_nonce_account (invoke : Oracle) (accounts : Accounts)
    (signers : List Signer) : Option DispatchOut :=
  if accounts.length < 3 then
    pure (Except.error ProgramError.notEnoughAccountKeys, [], accounts)
  else do
    let nonce_account ← accounts[0]?
    let blockhashes ← accounts[1]?
    let nonce_authority ← accounts[2]?
    if !nonce_account.is_writable then
      pure (Except.error ProgramError.invalidAccountData, [], accounts)
    else if !nonce_authority.is_signer then
      pure (Except.error ProgramError.missingRequiredSignature, [], accounts)
    else
      pure (runInvoke invoke
        (Invocation.advanceNonceIx nonce_account blockhashes nonce_authority)
        signers accounts)

/-- Translation of process_withdraw_nonce_account
(src/pinocchio-complex/system/withdraw_nonce_account.rs). -/
def process_withdraw_nonce_account (invoke : Oracle) (accounts : Accounts)
    (lamports : Nat) (signers : List Signer) : Option DispatchOut :=
  if accounts.length < 5 then
    pure (Except.error ProgramError.notEnoughAccountKeys, [], accounts)
  else do
    let nonce_account ← accounts[0]?
    let recipient_account ← accounts[1]?
    let blockhashes ← accounts[2]?
    let rent ← accounts[3]?
    let nonce_authority ← accounts[4]?
    if !nonce_account.is_writable || !recipient_account.is_writable then
      pure (Except.error ProgramError.invalidAccountData, [], accounts)
    else if !nonce_authority.is_signer then
      pure (Except.error ProgramError.missingRequiredSignature, [], accounts)
    else
      pure (runInvoke invoke
        (Invocation.withdrawNonceIx nonce_account recipient_account blockhashes rent
          nonce_authority lamports)
        signers accounts)

/-- Translation of process_initialize_nonce_account
(src/pinocchio-complex/system/initialize_nonce_account.rs); renamed with
init for the development. Its invoke call takes no signers in the source,
modelled as passing the empty signer list. -/
def process_init_nonce_account (invoke : Oracle) (accounts : Accounts)
    (authority : List Nat) : Option DispatchOut :=
  if accounts.length < 3 then
    pure (Except.error ProgramError.notEnoughAccountKeys, [], accounts)
  else do
    let nonce_account ← accounts[0]?
    let blockhashes ← accounts[1]?
    let rent ← accounts[2]?
    if !nonce_account.is_writable then
      pure (Except.error ProgramError.invalidAccountData, [], accounts)
    else
      pure (runInvoke invoke
        (Invocation.initNonceIx nonce_account blockhashes rent authority) [] accounts)

/-- Translation of process_authorize_nonce_account
(src/pinocchio-complex/system/authorize_nonce_account.rs). -/
def process_authorize_nonce_account (invoke : Oracle) (accounts : Accounts)
    (new_authority : List Nat) (signers : List Signer) : Option DispatchOut :=
  if accounts.length < 2 then
    pure (Except.error ProgramError.notEnoughAccountKeys, [], accounts)
  else do
    let nonce_account ← accounts[0]?
    let nonce_authority ← accounts[1]?
    if !nonce_account.is_writable then
      pure (Except.error ProgramError.invalidAccountData, [], accounts)
    else if !nonce_authority.is_signer then
      pure (Except.error ProgramError.missingRequiredSignature, [], accounts)
    else
      pure (runInvoke invoke
        (Invocation.authorizeNonceIx nonce_account nonce_authority new_authority)
        signers accounts)

/-- Translation of process_update_nonce_account
(src/pinocchio-complex/system/update_nonce_account.rs); its invoke call
takes no signers, modelled as passing the empty signer list. -/
def process_update_nonce_account (invoke : Oracle) (accounts : Accounts) :
    Option DispatchOut :=
  if accounts.isEmpty then
    pure (Except.error ProgramError.notEnoughAccountKeys, [], accounts)
  else do
    let nonce_account ← accounts[0]?
    if !nonce_account.is_writable then
      pure (Except.error ProgramError.invalidAccountData, [], accounts)
    else
      pure (runInvoke invoke (Invocation.updateNonceIx nonce_account) [] accounts)

/-- Modelled from the spec: process_initialize_mint is declared and
dispatched in lib.rs but its source file is absent from src; renamed with
init for the development. The dispatcher hands it exactly the first two
accounts (mint, rent sysvar) plus the already-extracted decimals and
authority addresses. Modelled per the generic dispatcher algorithm of the
spec: account-count check first with NotEnoughAccounts, a writable check
on the mint, then the invocation. -/
def process_init_mint (invoke : Oracle) (accounts : Accounts) (decimals : Nat)
    (mint_authority : List Nat) (freeze_authority : Option (List Nat)) :
    Option DispatchOut :=
  if accounts.length < 2 then
    pure (Except.error ProgramError.notEnoughAccountKeys, [], accounts)
  else do
    let mint_account ← accounts[0]?
    let rent ← accounts[1]?
    if !mint_account.is_writable then
      pure (Except.error ProgramError.invalidAccountData, [], accounts)
    else
      pure (runInvoke invoke
        (Invocation.initMintIx mint_account rent decimals mint_authority freeze_authority)
        [] accounts)

/-- Modelled from the spec: process_initialize_account is declared and
dispatched in lib.rs but its source file is absent from src; renamed with
init for the development. Modelled per the generic dispatcher algorithm
of the spec (account-count check first with NotEnoughAccounts, capability
check, invocation); the account list follows the token-account pattern
account (writable), mint, owner, rent sysvar; the spec does not state the
minimum count, taken here as 4. -/
def process_init_account (invoke : Oracle) (accounts : Accounts) :
    Option DispatchOut :=
  if accounts.length < 4 then
    pure (Except.error ProgramError.notEnoughAccountKeys, [], accounts)
  else do
    let token_account ← accounts[0]?
    let mint_account ← accounts[1]?
    let owner_account ← accounts[2]?
    let rent ← accounts[3]?
    if !token_account.is_writable then
      pure (Except.error ProgramError.invalidAccountData, [], accounts)
    else
      pure (runInvoke invoke
        (Invocation.initAccountIx token_account mint_account owner_account rent)
        [] accounts)

/-- Modelled from the spec: process_transfer of transfer_tokens.rs is
declared and dispatched in lib.rs but its source file is absent from src.
Modelled per the account-capability policy table row for the ledger
value-transfer family: minimum account count 2 (checked first with
NotEnoughAccounts), writable required at index 0, signer required at
index 2 (the authority); when only two accounts are supplied the signer
check at index 2 finds no handle and fails with MissingSignature. -/
def process_token_transfer (invoke : Oracle) (accounts : Accounts) (amount : Nat)
    (signers : List Signer) : Option DispatchOut :=
  if accounts.length < 2 then
    pure (Except.error ProgramError.notEnoughAccountKeys, [], accounts)
  else do
    let source_account ← accounts[0]?
    let dest_account ← accounts[1]?
    if !source_account.is_writable then
      pure (Except.error ProgramError.invalidAccountData, [], accounts)
    else
      match accounts[2]? with
      | none =>
          pure (Except.error ProgramError.missingRequiredSignature, [], accounts)
      | some authority_account =>
          if !authority_account.is_signer then
            pure (Except.error ProgramError.missingRequiredSignature, [], accounts)
          else
            pure (runInvoke invoke
              (Invocation.tokenTransferIx source_account dest_account authority_account
                amount)
              signers accounts)

/-- Translation of process_approve (src/pinocchio-complex/token/approve.rs). -/
def process_approve (invoke : Oracle) (accounts : Accounts) (amount : Nat)
    (signers : List Signer) : Option DispatchOut :=
  if accounts.length < 3 then
    pure (Except.error ProgramError.notEnoughAccountKeys, [], accounts)
  else do
    let source_account ← accounts[0]?
    let delegate_account ← accounts[1]?
    let authority_account ← accounts[2]?
    if !source_account.is_writable then
      pure (Except.error ProgramError.invalidAccountData, [], accounts)
    else if !authority_account.is_signer then
      pure (Except.error ProgramError.missingRequiredSignature, [], accounts)
    else
      pure (runInvoke invoke
        (Invocation.approveIx source_account delegate_account authority_account amount)
        signers accounts)

/-- Translation of process_revoke (src/pinocchio-complex/token/revoke.rs). -/
def process_revoke (invoke : Oracle) (accounts : Accounts)
    (signers : List Signer) : Option DispatchOut :=
  if accounts.length < 2 then
    pure (Except.error ProgramError.notEnoughAccountKeys, [], accounts)
  else do
    let source_account ← accounts[0]?
    let owner_account ← accounts[1]?
    if !source_account.is_writable then
      pure (Except.error ProgramError.invalidAccountData, [], accounts)
    else if !owner_account.is_signer then
      pure (Except.error ProgramError.missingRequiredSignature, [], accounts)
    else
      pure (runInvoke invoke (Invocation.revokeIx source_account owner_account)
        signers accounts)

/-- Translation of process_set_authority
(src/pinocchio-complex/token/set_authority.rs). -/
def process_set_authority (invoke : Oracle) (accounts : Accounts)
    (authority_type : AuthorityType) (new_authority : Option (List Nat))
    (signers : List Signer) : Option DispatchOut :=
  if accounts.length < 2 then
    pure (Except.error ProgramError.notEnoughAccountKeys, [], accounts)
  else do
    let account_to_update ← accounts[0]?
    let current_authority ← accounts[1]?
    if !account_to_update.is_writable then
      pure (Except.error ProgramError.invalidAccountData, [], accounts)
    else if !current_authority.is_signer then
      pure (Except.error ProgramError.missingRequiredSignature, [], accounts)
    else
      pure (runInvoke invoke
        (Invocation.setAuthorityIx account_to_update current_authority authority_type
          new_authority)
        signers accounts)

/-- Modelled from the spec: process_mint_to is declared and dispatched in
lib.rs but its source file is absent from src. Modelled per the generic
dispatcher algorithm of the spec and the mint family pattern of the
repository (mint writable, destination account writable, mint authority
signer); the spec does not state the minimum count, taken here as 3. -/
def process_mint_to (invoke : Oracle) (accounts : Accounts) (amount : Nat)
    (signers : List Signer) : Option DispatchOut :=
  if accounts.length < 3 then
    pure (Except.error ProgramError.notEnoughAccountKeys, [], accounts)
  else do
    let mint_account ← accounts[0]?
    let token_account ← accounts[1]?
    let mint_authority ← accounts[2]?
    if !mint_account.is_writable then
      pure (Except.error ProgramError.invalidAccountData, [], accounts)
    else if !token_account.is_writable then
      pure (Except.error ProgramError.invalidAccountData, [], accounts)
    else if !mint_authority.is_signer then
      pure (Except.error ProgramError.missingRequiredSignature, [], accounts)
    else
      pure (runInvoke invoke
        (Invocation.mintToIx mint_account token_account mint_authority amount)
        signers accounts)

/-- Translation of process_burn (src/pinocchio-complex/token/burn.rs). -/
def process_burn (invoke : Oracle) (accounts : Accounts) (amount : Nat)
    (signers : List Signer) : Option DispatchOut :=
  if accounts.length < 3 then
    pure (Except.error ProgramError.notEnoughAccountKeys, [], accounts)
  else do
    let burn_account ← accounts[0]?
    let mint_account ← accounts[1]?
    let authority_account ← accounts[2]?
    if !burn_account.is_writable then
      pure (Except.error ProgramError.invalidAccountData, [], accounts)
    else if !mint_account.is_writable then
      pure (Except.error ProgramError.invalidAccountData, [], accounts)
    else if !authority_account.is_signer then
      pure (Except.error ProgramError.missingRequiredSignature, [], accounts)
    else
      pure (runInvoke invoke
        (Invocation.burnIx burn_account mint_account authority_account amount)
        signers accounts)

/-- Translation of process_close_account
(src/pinocchio-complex/token/close_account.rs). -/
def process_close_account (invoke : Oracle) (accounts : Accounts)
    (signers : List Signer) : Option DispatchOut :=
  if accounts.length < 3 then
    pure (Except.error ProgramError.notEnoughAccountKeys, [], accounts)
  else do
    let close_account ← accounts[0]?
    let destination_account ← accounts[1]?
    let authority_account ← accounts[2]?
    if !close_account.is_writable then
      pure (Except.error ProgramError.invalidAccountData, [], accounts)
    else if !destination_account.is_writable then
      pure (Except.error ProgramError.invalidAccountData, [], accounts)
    else if !authority_account.is_signer then
      pure (Except.error ProgramError.missingRequiredSignature, [], accounts)
    else
      pure (runInvoke invoke
        (Invocation.closeAccountIx close_account destination_account authority_account)
        signers accounts)

/-- Translation of process_freeze_account
(src/pinocchio-complex/token/freeze_account.rs). -/
def process_freeze_account (invoke : Oracle) (accounts : Accounts)
    (signers : List Signer) : Option DispatchOut :=
  if accounts.length < 3 then
    pure (Except.error ProgramError.notEnoughAccountKeys, [], accounts)
  else do
    let account_to_freeze ← accounts[0]?
    let mint_account ← accounts[1]?
    let freeze_authority ← accounts[2]?
    if !account_to_freeze.is_writable then
      pure (Except.error ProgramError.invalidAccountData, [], accounts)
    else if !freeze_authority.is_signer then
      pure (Except.error ProgramError.missingRequiredSignature, [], accounts)
    else
      pure (runInvoke invoke
        (Invocation.freezeIx account_to_freeze mint_account freeze_authority)
        signers accounts)

/-- Translation of process_thaw_account
(src/pinocchio-complex/token/thaw_account.rs). -/
def process_thaw_account (invoke : Oracle) (accounts : Accounts)
    (signers : List Signer) : Option DispatchOut :=
  if accounts.length < 3 then
    pure (Except.error ProgramError.notEnoughAccountKeys, [], accounts)
  else do
    let token_account ← accounts[0]?
    let mint_account ← accounts[1]?
    let freeze_authority ← accounts[2]?
    if !token_account.is_writable then
      pure (Except.error ProgramError.invalidAccountData, [], accounts)
    else if !freeze_authority.is_signer then
      pure (Except.error ProgramError.missingRequiredSignature, [], accounts)
    else
      pure (runInvoke invoke
        (Invocation.thawIx token_account mint_account freeze_authority)
        signers accounts)

/-- Translation of process_transfer_checked
(src/pinocchio-complex/token/transfer_checked.rs). -/
def process_transfer_checked (invoke : Oracle) (accounts : Accounts)
    (amount decimals : Nat) (signers : List Signer) : Option DispatchOut :=
  if accounts.length < 4 then
    pure (Except.error ProgramError.notEnoughAccountKeys, [], accounts)
  else do
    let from_account ← accounts[0]?
    let mint_account ← accounts[1]?
    let to_account ← accounts[2]?
    let authority_account ← accounts[3]?
    if !from_account.is_writable then
      pure (Except.error ProgramError.invalidAccountData, [], accounts)
    else if !to_account.is_writable then
      pure (Except.error ProgramError.invalidAccountData, [], accounts)
    else if !authority_account.is_signer then
      pure (Except.error ProgramError.missingRequiredSignature, [], accounts)
    else
      pure (runInvoke invoke
        (Invocation.transferCheckedIx from_account mint_account to_account
          authority_account amount decimals)
        signers accounts)

/-- Translation of process_approve_checked
(src/pinocchio-complex/token/approve_checked.rs). -/
def process_approve_checked (invoke : Oracle) (accounts : Accounts)
    (amount decimals : Nat) (signers : List Signer) : Option DispatchOut :=
  if accounts.length < 4 then
    pure (Except.error ProgramError.notEnoughAccountKeys, [], accounts)
  else do
    let source_account ← accounts[0]?
    let mint_account ← accounts[1]?
    let delegate_account ← accounts[2]?
    let authority_account ← accounts[3]?
    if !source_account.is_writable then
      pure (Except.error ProgramError.invalidAccountData, [], accounts)
    else if !authority_account.is_signer then
      pure (Except.error ProgramError.missingRequiredSignature, [], accounts)
    else
      pure (runInvoke invoke
        (Invocation.approveCheckedIx source_account mint_account delegate_account
          authority_account amount decimals)
        signers accounts)

/-- Translation of process_mint_to_checked
(src/pinocchio-complex/token/mint_to_checked.rs). -/
def process_mint_to_checked (invoke : Oracle) (accounts : Accounts)
    (amount decimals : Nat) (signers : List Signer) : Option DispatchOut :=
  if accounts.length < 3 then
    pure (Except.error ProgramError.notEnoughAccountKeys, [], accounts)
  else do
    let mint_account ← accounts[0]?
    let token_account ← accounts[1]?
    let mint_authority ← accounts[2]?
    if !mint_account.is_writable then
      pure (Except.error ProgramError.invalidAccountData, [], accounts)
    else if !token_account.is_writable then
      pure (Except.error ProgramError.invalidAccountData, [], accounts)
    else if !mint_authority.is_signer then
      pure (Except.error ProgramError.missingRequiredSignature, [], accounts)
    else
      pure (runInvoke invoke
        (Invocation.mintToCheckedIx mint_account token_account mint_authority amount
          decimals)
        signers accounts)

/-- Translation of process_burn_checked
(src/pinocchio-complex/token/burn_checked.rs). -/
def process_burn_checked (invoke : Oracle) (accounts : Accounts)
    (amount decimals : Nat) (signers : List Signer) : Option DispatchOut :=
  if accounts.length < 3 then
    pure (Except.error ProgramError.notEnoughAccountKeys, [], accounts)
  else do
    let burn_account ← accounts[0]?
    let mint_account ← accounts[1]?
    let authority_account ← accounts[2]?
    if !burn_account.is_writable then
      pure (Except.error ProgramError.invalidAccountData, [], accounts)
    else if !mint_account.is_writable then
      pure (Except.error ProgramError.invalidAccountData, [], accounts)
    else if !authority_account.is_signer then
      pure (Except.error ProgramError.missingRequiredSignature, [], accounts)
    else
      pure (runInvoke invoke
        (Invocation.burnCheckedIx burn_account mint_account authority_account amount
          decimals)
        signers accounts)

/-- Translation of process_sync_native
(src/pinocchio-complex/token/sync_native.rs); its invoke call takes no
signers, modelled as passing the empty signer list. -/
def process_sync_native (invoke : Oracle) (accounts : Accounts) :
    Option DispatchOut :=
  if accounts.length < 1 then
    pure (Except.error ProgramError.notEnoughAccountKeys, [], accounts)
  else do
    let native_token_account ← accounts[0]?
    if !native_token_account.is_writable then
      pure (Except.error ProgramError.invalidAccountData, [], accounts)
    else
      pure (runInvoke invoke (Invocation.syncNativeIx native_token_account) [] accounts)

/-- Translation of process_instruction (src/pinocchio-complex/lib.rs): the
discriminator-based dispatcher. Discriminator values follow the
system_discriminator and token_discriminator constant modules of the
source. The four seed-based discriminators (4, 5, 6, 11) return success
without touching payload or accounts, exactly as the source does. The
init-mint branch hands its handler the two-account slice of the same
account array; a mutation through that slice is a mutation of the first
two entries of the global list, so the global state after the call is
the returned slice state followed by the untouched remainder. -/
def process_instruction (invoke : Oracle) (accounts : Accounts)
    (instruction_data : List Nat) : Option DispatchOut :=
  if instruction_data.isEmpty then
    pure (Except.error ProgramError.invalidInstructionData, [], accounts)
  else do
    let discriminator ← instruction_data[0]?
    let data := instruction_data.drop 1
    match discriminator with
    | 0 =>
        if data.length < 32 then
          pure (Except.error ProgramError.invalidInstructionData, [], accounts)
        else do
          let owner ← read32 data 0
          process_assign invoke accounts owner []
    | 1 =>
        if data.length < 8 then
          pure (Except.error ProgramError.invalidInstructionData, [], accounts)
        else do
          let lamports ← u64Read data
          process_transfer invoke accounts lamports []
    | 2 =>
        if data.length < 48 then
          pure (Except.error ProgramError.invalidInstructionData, [], accounts)
        else do
          let lamports ← u64Read data
          let space ← u64Read (data.drop 8)
          let owner ← read32 data 16
          process_create_account invoke accounts lamports space owner []
    | 3 =>
        if data.length < 8 then
          pure (Except.error ProgramError.invalidInstructionData, [], accounts)
        else do
          let space ← u64Read data
          process_allocate invoke accounts space []
    | 4 => pure (Except.ok (), [], accounts)
    | 5 => pure (Except.ok (), [], accounts)
    | 6 => pure (Except.ok (), [], accounts)
    | 7 => process_advance_nonce_account invoke accounts []
    | 8 =>
        if data.length < 8 then
          pure (Except.error ProgramError.invalidInstructionData, [], accounts)
        else do
          let lamports ← u64Read data
          process_withdraw_nonce_account invoke accounts lamports []
    | 9 =>
        if data.length < 32 then
          pure (Except.error ProgramError.invalidInstructionData, [], accounts)
        else do
          let authority ← read32 data 0
          process_init_nonce_account invoke accounts authority
    | 10 =>
        if data.length < 32 then
          pure (Except.error ProgramError.invalidInstructionData, [], accounts)
        else do
          let new_authority ← read32 data 0
          process_authorize_nonce_account invoke accounts new_authority []
    | 11 => pure (Except.ok (), [], accounts)
    | 12 => process_update_nonce_account invoke accounts
    | 20 =>
        if data.isEmpty || accounts.length < 3 then
          pure (Except.error ProgramError.invalidInstructionData, [], accounts)
        else do
          let decimals ← data[0]?
          let authority_holder ← accounts[2]?
          let mint_authority := authority_holder.address
          let freeze_authority ←
            if accounts.length > 3 then do
              let freeze_holder ← accounts[3]?
              pure (some freeze_holder.address)
            else
              pure none
          let out ← process_init_mint invoke (accounts.take 2) decimals mint_authority
            freeze_authority
          pure (out.1, out.2.1, out.2.2 ++ accounts.drop 2)
    | 21 => process_init_account invoke accounts
    | 22 =>
        if data.length < 8 then
          pure (Except.error ProgramError.invalidInstructionData, [], accounts)
        else do
          let amount ← u64Read data
          process_token_transfer invoke accounts amount []
    | 23 =>
        if data.length < 8 then
          pure (Except.error ProgramError.invalidInstructionData, [], accounts)
        else do
          let amount ← u64Read data
          process_approve invoke accounts amount []
    | 24 => process_revoke invoke accounts []
    | 25 =>
        if data.isEmpty then
          pure (Except.error ProgramError.invalidInstructionData, [], accounts)
        else do
          let selector ← data[0]?
          let authority_type? : Option AuthorityType :=
            match selector with
            | 0 => some AuthorityType.mintTokens
            | 1 => some AuthorityType.freezeAccount
            | 2 => some AuthorityType.accountOwner
            | 3 => some AuthorityType.closeAccount
            | _ => none
          match authority_type? with
          | none =>
              pure (Except.error ProgramError.invalidInstructionData, [], accounts)
          | some authority_type => do
              let new_authority ←
                if 33 ≤ data.length then do
                  let addr ← read32 data 1
                  pure (some addr)
                else
                  pure none
              process_set_authority invoke accounts authority_type new_authority []
    | 26 =>
        if data.length < 8 then
          pure (Except.error ProgramError.invalidInstructionData, [], accounts)
        else do
          let amount ← u64Read data
          process_mint_to invoke accounts amount []
    | 27 =>
        if data.length < 8 then
          pure (Except.error ProgramError.invalidInstructionData, [], accounts)
        else do
          let amount ← u64Read data
          process_burn invoke accounts amount []
    | 28 => process_close_account invoke accounts []
    | 29 => process_freeze_account invoke accounts []
    | 30 => process_thaw_account invoke accounts []
    | 31 =>
        if data.length < 9 then
          pure (Except.error ProgramError.invalidInstructionData, [], accounts)
        else do
          let amount ← u64Read data
          let decimals ← data[8]?
          process_transfer_checked invoke accounts amount decimals []
    | 32 =>
        if data.length < 9 then
          pure (Except.error ProgramError.invalidInstructionData, [], accounts)
        else do
          let amount ← u64Read data
          let decimals ← data[8]?
          process_approve_checked invoke accounts amount decimals []
    | 33 =>
        if data.length < 9 then
          pure (Except.error ProgramError.invalidInstructionData, [], accounts)
        else do
          let amount ← u64Read data
          let decimals ← data[8]?
          process_mint_to_checked invoke accounts amount decimals []
    | 34 =>
        if data.length < 9 then
          pure (Except.error ProgramError.invalidInstructionData, [], accounts)
        else do
          let amount ← u64Read data
          let decimals ← data[8]?
          process_burn_checked invoke accounts amount decimals []
    | 35 => process_sync_native invoke accounts
    | _ => pure (Except.error ProgramError.invalidInstructionData, [], accounts)

/-- Trivial oracle used for concrete evaluations: the primitive succeeds
and leaves the account state unchanged. -/
def okOracle : Oracle := fun _ _ accounts => (Except.ok (), accounts)

/-- Concrete account handle with both capability flags set, for concrete
evaluations. -/
def signerWritableAcct : AccountView :=
  { is_signer := true, is_writable := true, address := List.replicate 32 7,
    lamports := 100, account_data := [] }

/-- Concrete account handle with only the writable flag set. -/
def writableAcct : AccountView :=
  { is_signer := false, is_writable := true, address := List.replicate 32 8,
    lamports := 50, account_data := [] }

/-- Concrete account handle with neither capability flag set. -/
def plainAcct : AccountView :=
  { is_signer := false, is_writable := false, address := List.replicate 32 9,
    lamports := 0, account_data := [] }

/-- Opcode table, account side: the minimum account count each opcode
enforces, as read off the first check of its handler (or, for init-mint,
the fused guard in the dispatcher). 0 for the no-op seed opcodes and for
unrecognized discriminators, which enforce no account minimum. -/
def minAccounts : Nat → Nat
  | 0 => 1 | 1 => 2 | 2 => 2 | 3 => 1 | 7 => 3 | 8 => 5 | 9 => 3 | 10 => 2
  | 12 => 1 | 20 => 3 | 21 => 4 | 22 => 2 | 23 => 3 | 24 => 2 | 25 => 2
  | 26 => 3 | 27 => 3 | 28 => 3 | 29 => 3 | 30 => 3 | 31 => 4 | 32 => 4
  | 33 => 3 | 34 => 3 | 35 => 1
  | _ => 0

/-- Opcode table, payload side: whether the payload passes every decode
check the dispatcher runs before looking at the accounts (the minimum
payload length, and for set-authority also the selector byte being in
the recognized set). True for opcodes without payload guards. -/
def payloadOk (d : Nat) (data : List Nat) : Bool :=
  match d with
  | 0 => 32 ≤ data.length
  | 1 => 8 ≤ data.length
  | 2 => 48 ≤ data.length
  | 3 => 8 ≤ data.length
  | 8 => 8 ≤ data.length
  | 9 => 32 ≤ data.length
  | 10 => 32 ≤ data.length
  | 20 => !data.isEmpty
  | 22 => 8 ≤ data.length
  | 23 => 8 ≤ data.length
  | 25 => match data.head? with
          | some b => b < 4
          | none => false
  | 26 => 8 ≤ data.length
  | 27 => 8 ≤ data.length
  | 31 => 9 ≤ data.length
  | 32 => 9 ≤ data.length
  | 33 => 9 ≤ data.length
  | 34 => 9 ≤ data.length
  | _ => true

/-- Classification of the results the decode-and-validate phase itself can
produce: success, or one of the four validation error codes; never a
custom (downstream) code. -/
def ValidationResult (r : Except ProgramError Unit) : Prop :=
  r = Except.ok () ∨
  r = Except.error ProgramError.invalidInstructionData ∨
  r = Except.error ProgramError.notEnoughAccountKeys ∨
  r = Except.error ProgramError.missingRequiredSignature ∨
  r = Except.error ProgramError.invalidAccountData

/-- Factored shape of a dispatch outcome: either the run never reached the
external primitive — the invocation trace is empty, the account state is
returned untouched, and the result is a validation result — or the run
reached the primitive exactly once on a leading slice of the account list
(the whole list for every opcode except init-mint), the result is the
result of the primitive verbatim, and only that slice of the account
state passed through the primitive. -/
def FactorOut (invoke : Oracle) (accounts : Accounts) (out : Option DispatchOut) :
    Prop :=
  (∃ r, out = some (r, [], accounts) ∧ ValidationResult r) ∨
  (∃ ix signers sub rest, accounts = sub ++ rest ∧
    out = some ((invoke ix signers sub).1, [ix], (invoke ix signers sub).2 ++ rest))

/-- Every error code emitted by a validation check is a validation result. -/
theorem err_validation (e : ProgramError)
    (h : e = ProgramError.invalidInstructionData ∨ e = ProgramError.notEnoughAccountKeys ∨
         e = ProgramError.missingRequiredSignature ∨ e = ProgramError.invalidAccountData) :
    ValidationResult (Except.error e) := by
  rcases h with h | h | h | h <;> subst h <;> simp [ValidationResult]

/-- A handler tail that runs the primitive on the whole account list is a
factored outcome. -/
theorem factor_invoke (invoke : Oracle) (accounts : Accounts) (ix : Invocation)
    (signers : List Signer) :
    FactorOut invoke accounts (pure (runInvoke invoke ix signers accounts)) :=
  Or.inr ⟨ix, signers, accounts, [], by simp, by simp [runInvoke]⟩

/-- A nonempty list has positive length. -/
theorem length_pos_of_not_isEmpty {l : Accounts} (h : ¬l.isEmpty = true) :
    0 < l.length := by
  cases l with
  | nil => simp at h
  | cons a t => simp

theorem process_assign_factor (invoke : Oracle) (accounts : Accounts)
    (owner : List Nat) (signers : List Signer) :
    FactorOut invoke accounts (process_assign invoke accounts owner signers) := by
  unfold process_assign
  split_ifs with h
  · exact Or.inl ⟨_, rfl, err_validation _ (by simp)⟩
  · rw [List.getElem?_eq_getElem (length_pos_of_not_isEmpty h)]
    simp only [Option.bind_eq_bind, Option.some_bind, pure]
    split_ifs with h1
    · exact Or.inl ⟨_, rfl, err_validation _ (by simp)⟩
    · exact factor_invoke invoke accounts _ _

theorem process_transfer_factor (invoke : Oracle) (accounts : Accounts)
    (lamports : Nat) (signers : List Signer) :
    FactorOut invoke accounts (process_transfer invoke accounts lamports signers) := by
  unfold process_transfer
  split_ifs with h
  · exact Or.inl ⟨_, rfl, err_validation _ (by simp)⟩
  · rw [List.getElem?_eq_getElem (by omega : 0 < accounts.length),
        List.getElem?_eq_getElem (by omega : 1 < accounts.length)]
    simp only [Option.bind_eq_bind, Option.some_bind, pure]
    split_ifs with h1 h2 h3
    · exact Or.inl ⟨_, rfl, err_validation _ (by simp)⟩
    · exact Or.inl ⟨_, rfl, err_validation _ (by simp)⟩
    · exact Or.inl ⟨_, rfl, err_validation _ (by simp)⟩
    · exact factor_invoke invoke accounts _ _

theorem process_create_account_factor (invoke : Oracle) (accounts : Accounts)
    (lamports space : Nat) (owner : List Nat) (signers : List Signer) :
    FactorOut invoke accounts
      (process_create_account invoke accounts lamports space owner signers) := by
  unfold process_create_account
  split_ifs with h
  · exact Or.inl ⟨_, rfl, err_validation _ (by simp)⟩
  · rw [List.getElem?_eq_getElem (by omega : 0 < accounts.length),
        List.getElem?_eq_getElem (by omega : 1 < accounts.length)]
    simp only [Option.bind_eq_bind, Option.some_bind, pure]
    split_ifs with h1
    · exact Or.inl ⟨_, rfl, err_validation _ (by simp)⟩
    · exact factor_invoke invoke accounts _ _

theorem process_allocate_factor (invoke : Oracle) (accounts : Accounts)
    (space : Nat) (signers : List Signer) :
    FactorOut invoke accounts (process_allocate invoke accounts space signers) := by
  unfold process_allocate
  split_ifs with h
  · exact Or.inl ⟨_, rfl, err_validation _ (by simp)⟩
  · rw [List.getElem?_eq_getElem (length_pos_of_not_isEmpty h)]
    simp only [Option.bind_eq_bind, Option.some_bind, pure]
    split_ifs with h1
    · exact Or.inl ⟨_, rfl, err_validation _ (by simp)⟩
    · exact factor_invoke invoke accounts _ _

theorem process_advance_nonce_account_factor (invoke : Oracle) (accounts : Accounts)
    (signers : List Signer) :
    FactorOut invoke accounts (process_advance_nonce_account invoke accounts signers) := by
  unfold process_advance_nonce_account
  split_ifs with h
  · exact Or.inl ⟨_, rfl, err_validation _ (by simp)⟩
  · rw [List.getElem?_eq_getElem (by omega : 0 < accounts.length),
        List.getElem?_eq_getElem (by omega : 1 < accounts.length),
        List.getElem?_eq_getElem (by omega : 2 < accounts.length)]
    simp only [Option.bind_eq_bind, Option.some_bind, pure]
    split_ifs with h1 h2
    · exact Or.inl ⟨_, rfl, err_validation _ (by simp)⟩
    · exact Or.inl ⟨_, rfl, err_validation _ (by simp)⟩
    · exact factor_invoke invoke accounts _ _

theorem process_withdraw_nonce_account_factor (invoke : Oracle) (accounts : Accounts)
    (lamports : Nat) (signers : List Signer) :
    FactorOut invoke accounts
      (process_withdraw_nonce_account invoke accounts lamports signers) := by
  unfold process_withdraw_nonce_account
  split_ifs with h
  · exact Or.inl ⟨_, rfl, err_validation _ (by simp)⟩
  · rw [List.getElem?_eq_getElem (by omega : 0 < accounts.length),
        List.getElem?_eq_getElem (by omega : 1 < accounts.length),
        List.getElem?_eq_getElem (by omega : 2 < accounts.length),
        List.getElem?_eq_getElem (by omega : 3 < accounts.length),
        List.getElem?_eq_getElem (by omega : 4 < accounts.length)]
    simp only [Option.bind_eq_bind, Option.some_bind, pure]
    split_ifs with h1 h2
    · exact Or.inl ⟨_, rfl, err_validation _ (by simp)⟩
    · exact Or.inl ⟨_, rfl, err_validation _ (by simp)⟩
    · exact factor_invoke invoke accounts _ _

theorem process_init_nonce_account_factor (invoke : Oracle) (accounts : Accounts)
    (authority : List Nat) :
    FactorOut invoke accounts (process_init_nonce_account invoke accounts authority) := by
  unfold process_init_nonce_account
  split_ifs with h
  · exact Or.inl ⟨_, rfl, err_validation _ (by simp)⟩
  · rw [List.getElem?_eq_getElem (by omega : 0 < accounts.length),
        List.getElem?_eq_getElem (by omega : 1 < accounts.length),
        List.getElem?_eq_getElem (by omega : 2 < accounts.length)]
    simp only [Option.bind_eq_bind, Option.some_bind, pure]
    split_ifs with h1
    · exact Or.inl ⟨_, rfl, err_validation _ (by simp)⟩
    · exact factor_invoke invoke accounts _ _

theorem process_authorize_nonce_account_factor (invoke : Oracle) (accounts : Accounts)
    (new_authority : List Nat) (signers : List Signer) :
    FactorOut invoke accounts
      (process_authorize_nonce_account invoke accounts new_authority signers) := by
  unfold process_authorize_nonce_account
  split_ifs with h
  · exact Or.inl ⟨_, rfl, err_validation _ (by simp)⟩
  · rw [List.getElem?_eq_getElem (by omega : 0 < accounts.length),
        List.getElem?_eq_getElem (by omega : 1 < accounts.length)]
    simp only [Option.bind_eq_bind, Option.some_bind, pure]
    split_ifs with h1 h2
    · exact Or.inl ⟨_, rfl, err_validation _ (by simp)⟩
    · exact Or.inl ⟨_, rfl, err_validation _ (by simp)⟩
    · exact factor_invoke invoke accounts _ _

theorem process_update_nonce_account_factor (invoke : Oracle) (accounts : Accounts) :
    FactorOut invoke accounts (process_update_nonce_account invoke accounts) := by
  unfold process_update_nonce_account
  split_ifs with h
  · exact Or.inl ⟨_, rfl, err_validation _ (by simp)⟩
  · rw [List.getElem?_eq_getElem (length_pos_of_not_isEmpty h)]
    simp only [Option.bind_eq_bind, Option.some_bind, pure]
    split_ifs with h1
    · exact Or.inl ⟨_, rfl, err_validation _ (by simp)⟩
    · exact factor_invoke invoke accounts _ _

theorem process_init_mint_factor (invoke : Oracle) (accounts : Accounts)
    (decimals : Nat) (mint_authority : List Nat)
    (freeze_authority : Option (List Nat)) :
    FactorOut invoke accounts
      (process_init_mint invoke accounts decimals mint_authority freeze_authority) := by
  unfold process_init_mint
  split_ifs with h
  · exact Or.inl ⟨_, rfl, err_validation _ (by simp)⟩
  · rw [List.getElem?_eq_getElem (by omega : 0 < accounts.length),
        List.getElem?_eq_getElem (by omega : 1 < accounts.length)]
    simp only [Option.bind_eq_bind, Option.some_bind, pure]
    split_ifs with h1
    · exact Or.inl ⟨_, rfl, err_validation _ (by simp)⟩
    · exact factor_invoke invoke accounts _ _

theorem process_init_account_factor (invoke : Oracle) (accounts : Accounts) :
    FactorOut invoke accounts (process_init_account invoke accounts) := by
  unfold process_init_account
  split_ifs with h
  · exact Or.inl ⟨_, rfl, err_validation _ (by simp)⟩
  · rw [List.getElem?_eq_getElem (by omega : 0 < accounts.length),
        List.getElem?_eq_getElem (by omega : 1 < accounts.length),
        List.getElem?_eq_getElem (by omega : 2 < accounts.length),
        List.getElem?_eq_getElem (by omega : 3 < accounts.length)]
    simp only [Option.bind_eq_bind, Option.some_bind, pure]
    split_ifs with h1
    · exact Or.inl ⟨_, rfl, err_validation _ (by simp)⟩
    · exact factor_invoke invoke accounts _ _

theorem process_token_transfer_factor (invoke : Oracle) (accounts : Accounts)
    (amount : Nat) (signers : List Signer) :
    FactorOut invoke accounts
      (process_token_transfer invoke accounts amount signers) := by
  unfold process_token_transfer
  split_ifs with h
  · exact Or.inl ⟨_, rfl, err_validation _ (by simp)⟩
  · rw [List.getElem?_eq_getElem (by omega : 0 < accounts.length),
        List.getElem?_eq_getElem (by omega : 1 < accounts.length)]
    simp only [Option.bind_eq_bind, Option.some_bind, pure]
    split_ifs with h1
    · exact Or.inl ⟨_, rfl, err_validation _ (by simp)⟩
    · rcases h2 : accounts[2]? with _ | authority_account
      · exact Or.inl ⟨_, rfl, err_validation _ (by simp)⟩
      · dsimp only
        split_ifs with h3
        · exact Or.inl ⟨_, rfl, err_validation _ (by simp)⟩
        · exact factor_invoke invoke accounts _ _

theorem process_approve_factor (invoke : Oracle) (accounts : Accounts)
    (amount : Nat) (signers : List Signer) :
    FactorOut invoke accounts (process_approve invoke accounts amount signers) := by
  unfold process_approve
  split_ifs with h
  · exact Or.inl ⟨_, rfl, err_validation _ (by simp)⟩
  · rw [List.getElem?_eq_getElem (by omega : 0 < accounts.length),
        List.getElem?_eq_getElem (by omega : 1 < accounts.length),
        List.getElem?_eq_getElem (by omega : 2 < accounts.length)]
    simp only [Option.bind_eq_bind, Option.some_bind, pure]
    split_ifs with h1 h2
    · exact Or.inl ⟨_, rfl, err_validation _ (by simp)⟩
    · exact Or.inl ⟨_, rfl, err_validation _ (by simp)⟩
    · exact factor_invoke invoke accounts _ _

theorem process_revoke_factor (invoke : Oracle) (accounts : Accounts)
    (signers : List Signer) :
    FactorOut invoke accounts (process_revoke invoke accounts signers) := by
  unfold process_revoke
  split_ifs with h
  · exact Or.inl ⟨_, rfl, err_validation _ (by simp)⟩
  · rw [List.getElem?_eq_getElem (by omega : 0 < accounts.length),
        List.getElem?_eq_getElem (by omega : 1 < accounts.length)]
    simp only [Option.bind_eq_bind, Option.some_bind, pure]
    split_ifs with h1 h2
    · exact Or.inl ⟨_, rfl, err_validation _ (by simp)⟩
    · exact Or.inl ⟨_, rfl, err_validation _ (by simp)⟩
    · exact factor_invoke invoke accounts _ _

theorem process_set_authority_factor (invoke : Oracle) (accounts : Accounts)
    (authority_type : AuthorityType) (new_authority : Option (List Nat))
    (signers : List Signer) :
    FactorOut invoke accounts
      (process_set_authority invoke accounts authority_type new_authority signers) := by
  unfold process_set_authority
  split_ifs with h
  · exact Or.inl ⟨_, rfl, err_validation _ (by simp)⟩
  · rw [List.getElem?_eq_getElem (by omega : 0 < accounts.length),
        List.getElem?_eq_getElem (by omega : 1 < accounts.length)]
    simp only [Option.bind_eq_bind, Option.some_bind, pure]
    split_ifs with h1 h2
    · exact Or.inl ⟨_, rfl, err_validation _ (by simp)⟩
    · exact Or.inl ⟨_, rfl, err_validation _ (by simp)⟩
    · exact factor_invoke invoke accounts _ _

theorem process_mint_to_factor (invoke : Oracle) (accounts : Accounts)
    (amount : Nat) (signers : List Signer) :
    FactorOut invoke accounts (process_mint_to invoke accounts amount signers) := by
  unfold process_mint_to
  split_ifs with h
  · exact Or.inl ⟨_, rfl, err_validation _ (by simp)⟩
  · rw [List.getElem?_eq_getElem (by omega : 0 < accounts.length),
        List.getElem?_eq_getElem (by omega : 1 < accounts.length),
        List.getElem?_eq_getElem (by omega : 2 < accounts.length)]
    simp only [Option.bind_eq_bind, Option.some_bind, pure]
    split_ifs with h1 h2 h3
    · exact Or.inl ⟨_, rfl, err_validation _ (by simp)⟩
    · exact Or.inl ⟨_, rfl, err_validation _ (by simp)⟩
    · exact Or.inl ⟨_, rfl, err_validation _ (by simp)⟩
    · exact factor_invoke invoke accounts _ _

theorem process_burn_factor (invoke : Oracle) (accounts : Accounts)
    (amount : Nat) (signers : List Signer) :
    FactorOut invoke accounts (process_burn invoke accounts amount signers) := by
  unfold process_burn
  split_ifs with h
  · exact Or.inl ⟨_, rfl, err_validation _ (by simp)⟩
  · rw [List.getElem?_eq_getElem (by omega : 0 < accounts.length),
        List.getElem?_eq_getElem (by omega : 1 < accounts.length),
        List.getElem?_eq_getElem (by omega : 2 < accounts.length)]
    simp only [Option.bind_eq_bind, Option.some_bind, pure]
    split_ifs with h1 h2 h3
    · exact Or.inl ⟨_, rfl, err_validation _ (by simp)⟩
    · exact Or.inl ⟨_, rfl, err_validation _ (by simp)⟩
    · exact Or.inl ⟨_, rfl, err_validation _ (by simp)⟩
    · exact factor_invoke invoke accounts _ _

theorem process_close_account_factor (invoke : Oracle) (accounts : Accounts)
    (signers : List Signer) :
    FactorOut invoke accounts (process_close_account invoke accounts signers) := by
  unfold process_close_account
  split_ifs with h
  · exact Or.inl ⟨_, rfl, err_validation _ (by simp)⟩
  · rw [List.getElem?_eq_getElem (by omega : 0 < accounts.length),
        List.getElem?_eq_getElem (by omega : 1 < accounts.length),
        List.getElem?_eq_getElem (by omega : 2 < accounts.length)]
    simp only [Option.bind_eq_bind, Option.some_bind, pure]
    split_ifs with h1 h2 h3
    · exact Or.inl ⟨_, rfl, err_validation _ (by simp)⟩
    · exact Or.inl ⟨_, rfl, err_validation _ (by simp)⟩
    · exact Or.inl ⟨_, rfl, err_validation _ (by simp)⟩
    · exact factor_invoke invoke accounts _ _

theorem process_freeze_account_factor (invoke : Oracle) (accounts : Accounts)
    (signers : List Signer) :
    FactorOut invoke accounts (process_freeze_account invoke accounts signers) := by
  unfold process_freeze_account
  split_ifs with h
  · exact Or.inl ⟨_, rfl, err_validation _ (by simp)⟩
  · rw [List.getElem?_eq_getElem (by omega : 0 < accounts.length),
        List.getElem?_eq_getElem (by omega : 1 < accounts.length),
        List.getElem?_eq_getElem (by omega : 2 < accounts.length)]
    simp only [Option.bind_eq_bind, Option.some_bind, pure]
    split_ifs with h1 h2
    · exact Or.inl ⟨_, rfl, err_validation _ (by simp)⟩
    · exact Or.inl ⟨_, rfl, err_validation _ (by simp)⟩
    · exact factor_invoke invoke accounts _ _

theorem process_thaw_account_factor (invoke : Oracle) (accounts : Accounts)
    (signers : List Signer) :
    FactorOut invoke accounts (process_thaw_account invoke accounts signers) := by
  unfold process_thaw_account
  split_ifs with h
  · exact Or.inl ⟨_, rfl, err_validation _ (by simp)⟩
  · rw [List.getElem?_eq_getElem (by omega : 0 < accounts.length),
        List.getElem?_eq_getElem (by omega : 1 < accounts.length),
        List.getElem?_eq_getElem (by omega : 2 < accounts.length)]
    simp only [Option.bind_eq_bind, Option.some_bind, pure]
    split_ifs with h1 h2
    · exact Or.inl ⟨_, rfl, err_validation _ (by simp)⟩
    · exact Or.inl ⟨_, rfl, err_validation _ (by simp)⟩
    · exact factor_invoke invoke accounts _ _

theorem process_transfer_checked_factor (invoke : Oracle) (accounts : Accounts)
    (amount decimals : Nat) (signers : List Signer) :
    FactorOut invoke accounts
      (process_transfer_checked invoke accounts amount decimals signers) := by
  unfold process_transfer_checked
  split_ifs with h
  · exact Or.inl ⟨_, rfl, err_validation _ (by simp)⟩
  · rw [List.getElem?_eq_getElem (by omega : 0 < accounts.length),
        List.getElem?_eq_getElem (by omega : 1 < accounts.length),
        List.getElem?_eq_getElem (by omega : 2 < accounts.length),
        List.getElem?_eq_getElem (by omega : 3 < accounts.length)]
    simp only [Option.bind_eq_bind, Option.some_bind, pure]
    split_ifs with h1 h2 h3
    · exact Or.inl ⟨_, rfl, err_validation _ (by simp)⟩
    · exact Or.inl ⟨_, rfl, err_validation _ (by simp)⟩
    · exact Or.inl ⟨_, rfl, err_validation _ (by simp)⟩
    · exact factor_invoke invoke accounts _ _

theorem process_approve_checked_factor (invoke : Oracle) (accounts : Accounts)
    (amount decimals : Nat) (signers : List Signer) :
    FactorOut invoke accounts
      (process_approve_checked invoke accounts amount decimals signers) := by
  unfold process_approve_checked
  split_ifs with h
  · exact Or.inl ⟨_, rfl, err_validation _ (by simp)⟩
  · rw [List.getElem?_eq_getElem (by omega : 0 < accounts.length),
        List.getElem?_eq_getElem (by omega : 1 < accounts.length),
        List.getElem?_eq_getElem (by omega : 2 < accounts.length),
        List.getElem?_eq_getElem (by omega : 3 < accounts.length)]
    simp only [Option.bind_eq_bind, Option.some_bind, pure]
    split_ifs with h1 h2
    · exact Or.inl ⟨_, rfl, err_validation _ (by simp)⟩
    · exact Or.inl ⟨_, rfl, err_validation _ (by simp)⟩
    · exact factor_invoke invoke accounts _ _

theorem process_mint_to_checked_factor (invoke : Oracle) (accounts : Accounts)
    (amount decimals : Nat) (signers : List Signer) :
    FactorOut invoke accounts
      (process_mint_to_checked invoke accounts amount decimals signers) := by
  unfold process_mint_to_checked
  split_ifs with h
  · exact Or.inl ⟨_, rfl, err_validation _ (by simp)⟩
  · rw [List.getElem?_eq_getElem (by omega : 0 < accounts.length),
        List.getElem?_eq_getElem (by omega : 1 < accounts.length),
        List.getElem?_eq_getElem (by omega : 2 < accounts.length)]
    simp only [Option.bind_eq_bind, Option.some_bind, pure]
    split_ifs with h1 h2 h3
    · exact Or.inl ⟨_, rfl, err_validation _ (by simp)⟩
    · exact Or.inl ⟨_, rfl, err_validation _ (by simp)⟩
    · exact Or.inl ⟨_, rfl, err_validation _ (by simp)⟩
    · exact factor_invoke invoke accounts _ _

theorem process_burn_checked_factor (invoke : Oracle) (accounts : Accounts)
    (amount decimals : Nat) (signers : List Signer) :
    FactorOut invoke accounts
      (process_burn_checked invoke accounts amount decimals signers) := by
  unfold process_burn_checked
  split_ifs with h
  · exact Or.inl ⟨_, rfl, err_validation _ (by simp)⟩
  · rw [List.getElem?_eq_getElem (by omega : 0 < accounts.length),
        List.getElem?_eq_getElem (by omega : 1 < accounts.length),
        List.getElem?_eq_getElem (by omega : 2 < accounts.length)]
    simp only [Option.bind_eq_bind, Option.some_bind, pure]
    split_ifs with h1 h2 h3
    · exact Or.inl ⟨_, rfl, err_validation _ (by simp)⟩
    · exact Or.inl ⟨_, rfl, err_validation _ (by simp)⟩
    · exact Or.inl ⟨_, rfl, err_validation _ (by simp)⟩
    · exact factor_invoke invoke accounts _ _

theorem process_sync_native_factor (invoke : Oracle) (accounts : Accounts) :
    FactorOut invoke accounts (process_sync_native invoke accounts) := by
  unfold process_sync_native
  split_ifs with h
  · exact Or.inl ⟨_, rfl, err_validation _ (by simp)⟩
  · rw [List.getElem?_eq_getElem (by omega : 0 < accounts.length)]
    simp only [Option.bind_eq_bind, Option.some_bind, pure]
    split_ifs with h1
    · exact Or.inl ⟨_, rfl, err_validation _ (by simp)⟩
    · exact factor_invoke invoke accounts _ _

set_option maxHeartbeats 3200000 in
/-- Master factorization of the dispatcher: every run of
process_instruction, on every buffer, account list and oracle, either
stops before the external primitive — empty trace, untouched accounts,
validation result — or consists of exactly one primitive call. -/
theorem dispatch_factor (invoke : Oracle) (accounts : Accounts) (buf : List Nat) :
    FactorOut invoke accounts (process_instruction invoke accounts buf) := by
  rcases buf with _ | ⟨d, data⟩
  · exact Or.inl ⟨Except.error ProgramError.invalidInstructionData, rfl, err_validation _ (by simp)⟩
  rcases Nat.lt_or_ge d 36 with h36 | h36
  · interval_cases d
    · -- 0: assign
      simp only [process_instruction, List.isEmpty_cons, Bool.false_eq_true, if_false,
        List.getElem?_cons_zero, Option.bind_eq_bind, Option.some_bind,
        List.drop_succ_cons, List.drop_zero]
      split_ifs with hd
      · exact Or.inl ⟨Except.error ProgramError.invalidInstructionData, rfl, err_validation _ (by simp)⟩
      · unfold read32
        rw [if_pos (by omega : 0 + 32 ≤ data.length)]
        simp only [Option.bind_eq_bind, Option.some_bind]
        exact process_assign_factor invoke accounts _ []
    · -- 1: transfer
      simp only [process_instruction, List.isEmpty_cons, Bool.false_eq_true, if_false,
        List.getElem?_cons_zero, Option.bind_eq_bind, Option.some_bind,
        List.drop_succ_cons, List.drop_zero]
      split_ifs with hd
      · exact Or.inl ⟨Except.error ProgramError.invalidInstructionData, rfl, err_validation _ (by simp)⟩
      · unfold u64Read
        rw [if_pos (by omega : 8 ≤ data.length)]
        simp only [Option.bind_eq_bind, Option.some_bind]
        exact process_transfer_factor invoke accounts _ []
    · -- 2: create account
      simp only [process_instruction, List.isEmpty_cons, Bool.false_eq_true, if_false,
        List.getElem?_cons_zero, Option.bind_eq_bind, Option.some_bind,
        List.drop_succ_cons, List.drop_zero]
      split_ifs with hd
      · exact Or.inl ⟨Except.error ProgramError.invalidInstructionData, rfl, err_validation _ (by simp)⟩
      · unfold u64Read read32
        rw [if_pos (by omega : 8 ≤ data.length),
          if_pos (show 8 ≤ (data.drop 8).length by
            rw [List.length_drop]; omega),
          if_pos (by omega : 16 + 32 ≤ data.length)]
        simp only [Option.bind_eq_bind, Option.some_bind]
        exact process_create_account_factor invoke accounts _ _ _ []
    · -- 3: allocate
      simp only [process_instruction, List.isEmpty_cons, Bool.false_eq_true, if_false,
        List.getElem?_cons_zero, Option.bind_eq_bind, Option.some_bind,
        List.drop_succ_cons, List.drop_zero]
      split_ifs with hd
      · exact Or.inl ⟨Except.error ProgramError.invalidInstructionData, rfl, err_validation _ (by simp)⟩
      · unfold u64Read
        rw [if_pos (by omega : 8 ≤ data.length)]
        simp only [Option.bind_eq_bind, Option.some_bind]
        exact process_allocate_factor invoke accounts _ []
    · -- 4: seed no-op
      refine Or.inl ⟨Except.ok (), ?_, Or.inl rfl⟩
      simp only [process_instruction, List.isEmpty_cons, Bool.false_eq_true, if_false,
        List.getElem?_cons_zero, Option.bind_eq_bind, Option.some_bind,
        List.drop_succ_cons, List.drop_zero]
      rfl
    · -- 5: seed no-op
      refine Or.inl ⟨Except.ok (), ?_, Or.inl rfl⟩
      simp only [process_instruction, List.isEmpty_cons, Bool.false_eq_true, if_false,
        List.getElem?_cons_zero, Option.bind_eq_bind, Option.some_bind,
        List.drop_succ_cons, List.drop_zero]
      rfl
    · -- 6: seed no-op
      refine Or.inl ⟨Except.ok (), ?_, Or.inl rfl⟩
      simp only [process_instruction, List.isEmpty_cons, Bool.false_eq_true, if_false,
        List.getElem?_cons_zero, Option.bind_eq_bind, Option.some_bind,
        List.drop_succ_cons, List.drop_zero]
      rfl
    · -- 7: advance nonce
      simp only [process_instruction, List.isEmpty_cons, Bool.false_eq_true, if_false,
        List.getElem?_cons_zero, Option.bind_eq_bind, Option.some_bind,
        List.drop_succ_cons, List.drop_zero]
      exact process_advance_nonce_account_factor invoke accounts []
    · -- 8: withdraw nonce
      simp only [process_instruction, List.isEmpty_cons, Bool.false_eq_true, if_false,
        List.getElem?_cons_zero, Option.bind_eq_bind, Option.some_bind,
        List.drop_succ_cons, List.drop_zero]
      split_ifs with hd
      · exact Or.inl ⟨Except.error ProgramError.invalidInstructionData, rfl, err_validation _ (by simp)⟩
      · unfold u64Read
        rw [if_pos (by omega : 8 ≤ data.length)]
        simp only [Option.bind_eq_bind, Option.some_bind]
        exact process_withdraw_nonce_account_factor invoke accounts _ []
    · -- 9: init nonce
      simp only [process_instruction, List.isEmpty_cons, Bool.false_eq_true, if_false,
        List.getElem?_cons_zero, Option.bind_eq_bind, Option.some_bind,
        List.drop_succ_cons, List.drop_zero]
      split_ifs with hd
      · exact Or.inl ⟨Except.error ProgramError.invalidInstructionData, rfl, err_validation _ (by simp)⟩
      · unfold read32
        rw [if_pos (by omega : 0 + 32 ≤ data.length)]
        simp only [Option.bind_eq_bind, Option.some_bind]
        exact process_init_nonce_account_factor invoke accounts _
    · -- 10: authorize nonce
      simp only [process_instruction, List.isEmpty_cons, Bool.false_eq_true, if_false,
        List.getElem?_cons_zero, Option.bind_eq_bind, Option.some_bind,
        List.drop_succ_cons, List.drop_zero]
      split_ifs with hd
      · exact Or.inl ⟨Except.error ProgramError.invalidInstructionData, rfl, err_validation _ (by simp)⟩
      · unfold read32
        rw [if_pos (by omega : 0 + 32 ≤ data.length)]
        simp only [Option.bind_eq_bind, Option.some_bind]
        exact process_authorize_nonce_account_factor invoke accounts _ []
    · -- 11: seed no-op
      refine Or.inl ⟨Except.ok (), ?_, Or.inl rfl⟩
      simp only [process_instruction, List.isEmpty_cons, Bool.false_eq_true, if_false,
        List.getElem?_cons_zero, Option.bind_eq_bind, Option.some_bind,
        List.drop_succ_cons, List.drop_zero]
      rfl
    · -- 12: update nonce
      simp only [process_instruction, List.isEmpty_cons, Bool.false_eq_true, if_false,
        List.getElem?_cons_zero, Option.bind_eq_bind, Option.some_bind,
        List.drop_succ_cons, List.drop_zero]
      exact process_update_nonce_account_factor invoke accounts
    · -- 13
      refine Or.inl ⟨Except.error ProgramError.invalidInstructionData, ?_, err_validation _ (by simp)⟩
      simp only [process_instruction, List.isEmpty_cons, Bool.false_eq_true, if_false,
        List.getElem?_cons_zero, Option.bind_eq_bind, Option.some_bind,
        List.drop_succ_cons, List.drop_zero]
      rfl
    · -- 14
      refine Or.inl ⟨Except.error ProgramError.invalidInstructionData, ?_, err_validation _ (by simp)⟩
      simp only [process_instruction, List.isEmpty_cons, Bool.false_eq_true, if_false,
        List.getElem?_cons_zero, Option.bind_eq_bind, Option.some_bind,
        List.drop_succ_cons, List.drop_zero]
      rfl
    · -- 15
      refine Or.inl ⟨Except.error ProgramError.invalidInstructionData, ?_, err_validation _ (by simp)⟩
      simp only [process_instruction, List.isEmpty_cons, Bool.false_eq_true, if_false,
        List.getElem?_cons_zero, Option.bind_eq_bind, Option.some_bind,
        List.drop_succ_cons, List.drop_zero]
      rfl
    · -- 16
      refine Or.inl ⟨Except.error ProgramError.invalidInstructionData, ?_, err_validation _ (by simp)⟩
      simp only [process_instruction, List.isEmpty_cons, Bool.false_eq_true, if_false,
        List.getElem?_cons_zero, Option.bind_eq_bind, Option.some_bind,
        List.drop_succ_cons, List.drop_zero]
      rfl
    · -- 17
      refine Or.inl ⟨Except.error ProgramError.invalidInstructionData, ?_, err_validation _ (by simp)⟩
      simp only [process_instruction, List.isEmpty_cons, Bool.false_eq_true, if_false,
        List.getElem?_cons_zero, Option.bind_eq_bind, Option.some_bind,
        List.drop_succ_cons, List.drop_zero]
      rfl
    · -- 18
      refine Or.inl ⟨Except.error ProgramError.invalidInstructionData, ?_, err_validation _ (by simp)⟩
      simp only [process_instruction, List.isEmpty_cons, Bool.false_eq_true, if_false,
        List.getElem?_cons_zero, Option.bind_eq_bind, Option.some_bind,
        List.drop_succ_cons, List.drop_zero]
      rfl
    · -- 19
      refine Or.inl ⟨Except.error ProgramError.invalidInstructionData, ?_, err_validation _ (by simp)⟩
      simp only [process_instruction, List.isEmpty_cons, Bool.false_eq_true, if_false,
        List.getElem?_cons_zero, Option.bind_eq_bind, Option.some_bind,
        List.drop_succ_cons, List.drop_zero]
      rfl
    · -- 20: init mint
      rcases data with _ | ⟨decByte, dtail⟩
      · refine Or.inl ⟨Except.error ProgramError.invalidInstructionData, ?_,
          err_validation _ (by simp)⟩
        rfl
      simp only [process_instruction, List.isEmpty_cons, Bool.false_eq_true,
        Bool.false_or, if_false, List.getElem?_cons_zero, Option.bind_eq_bind,
        Option.some_bind, List.drop_succ_cons, List.drop_zero]
      rcases Nat.lt_or_ge accounts.length 3 with hlen | hlen
      · rw [if_pos (by simp [hlen])]
        exact Or.inl ⟨Except.error ProgramError.invalidInstructionData, rfl,
          err_validation _ (by simp)⟩
      · rw [if_neg (by simp [Nat.not_lt.mpr hlen]),
          List.getElem?_eq_getElem (by omega : 2 < accounts.length)]
        simp only [pure, Option.bind_eq_bind, Option.some_bind]
        split_ifs with h3
        · rw [List.getElem?_eq_getElem (by omega : 3 < accounts.length)]
          simp only [pure, Option.bind_eq_bind, Option.some_bind]
          rcases process_init_mint_factor invoke (accounts.take 2) decByte
              accounts[2].address (some accounts[3].address) with
            ⟨r, he, hv⟩ | ⟨ix, sg, sub, rest, hsplit, he⟩
          · rw [he]
            simp only [pure, Option.bind_eq_bind, Option.some_bind]
            rw [List.take_append_drop]
            exact Or.inl ⟨r, rfl, hv⟩
          · rw [he]
            simp only [pure, Option.bind_eq_bind, Option.some_bind]
            refine Or.inr ⟨ix, sg, sub, rest ++ accounts.drop 2, ?_, ?_⟩
            · conv_lhs => rw [← List.take_append_drop 2 accounts]
              rw [hsplit, List.append_assoc]
            · rw [List.append_assoc]
        · rcases process_init_mint_factor invoke (accounts.take 2) decByte
              accounts[2].address none with
            ⟨r, he, hv⟩ | ⟨ix, sg, sub, rest, hsplit, he⟩
          · rw [he]
            simp only [pure, Option.bind_eq_bind, Option.some_bind]
            rw [List.take_append_drop]
            exact Or.inl ⟨r, rfl, hv⟩
          · rw [he]
            simp only [pure, Option.bind_eq_bind, Option.some_bind]
            refine Or.inr ⟨ix, sg, sub, rest ++ accounts.drop 2, ?_, ?_⟩
            · conv_lhs => rw [← List.take_append_drop 2 accounts]
              rw [hsplit, List.append_assoc]
            · rw [List.append_assoc]
    · -- 21: init account
      simp only [process_instruction, List.isEmpty_cons, Bool.false_eq_true, if_false,
        List.getElem?_cons_zero, Option.bind_eq_bind, Option.some_bind,
        List.drop_succ_cons, List.drop_zero]
      exact process_init_account_factor invoke accounts
    · -- 22: token transfer
      simp only [process_instruction, List.isEmpty_cons, Bool.false_eq_true, if_false,
        List.getElem?_cons_zero, Option.bind_eq_bind, Option.some_bind,
        List.drop_succ_cons, List.drop_zero]
      split_ifs with hd
      · exact Or.inl ⟨Except.error ProgramError.invalidInstructionData, rfl, err_validation _ (by simp)⟩
      · unfold u64Read
        rw [if_pos (by omega : 8 ≤ data.length)]
        simp only [Option.bind_eq_bind, Option.some_bind]
        exact process_token_transfer_factor invoke accounts _ []
    · -- 23: approve
      simp only [process_instruction, List.isEmpty_cons, Bool.false_eq_true, if_false,
        List.getElem?_cons_zero, Option.bind_eq_bind, Option.some_bind,
        List.drop_succ_cons, List.drop_zero]
      split_ifs with hd
      · exact Or.inl ⟨Except.error ProgramError.invalidInstructionData, rfl, err_validation _ (by simp)⟩
      · unfold u64Read
        rw [if_pos (by omega : 8 ≤ data.length)]
        simp only [Option.bind_eq_bind, Option.some_bind]
        exact process_approve_factor invoke accounts _ []
    · -- 24: revoke
      simp only [process_instruction, List.isEmpty_cons, Bool.false_eq_true, if_false,
        List.getElem?_cons_zero, Option.bind_eq_bind, Option.some_bind,
        List.drop_succ_cons, List.drop_zero]
      exact process_revoke_factor invoke accounts []
    · -- 25: set authority
      rcases data with _ | ⟨b, tail⟩
      · refine Or.inl ⟨Except.error ProgramError.invalidInstructionData, ?_, err_validation _ (by simp)⟩
        rfl
      simp only [process_instruction, List.isEmpty_cons, Bool.false_eq_true, if_false,
        List.getElem?_cons_zero, Option.bind_eq_bind, Option.some_bind,
        List.drop_succ_cons, List.drop_zero]
      rcases Nat.lt_or_ge b 4 with hb | hb
      · interval_cases b
        all_goals {
          split_ifs with hlen
          · unfold read32
            rw [if_pos (by omega : 1 + 32 ≤ (_ :: tail).length)]
            simp only [Option.bind_eq_bind, Option.some_bind]
            exact process_set_authority_factor invoke accounts _ _ []
          · simp only [Option.bind_eq_bind, Option.some_bind]
            exact process_set_authority_factor invoke accounts _ _ []
        }
      · obtain ⟨m, rfl⟩ : ∃ m, b = m + 4 := ⟨b - 4, by omega⟩
        refine Or.inl ⟨Except.error ProgramError.invalidInstructionData, ?_, err_validation _ (by simp)⟩
        rfl
    · -- 26: mint to
      simp only [process_instruction, List.isEmpty_cons, Bool.false_eq_true, if_false,
        List.getElem?_cons_zero, Option.bind_eq_bind, Option.some_bind,
        List.drop_succ_cons, List.drop_zero]
      split_ifs with hd
      · exact Or.inl ⟨Except.error ProgramError.invalidInstructionData, rfl, err_validation _ (by simp)⟩
      · unfold u64Read
        rw [if_pos (by omega : 8 ≤ data.length)]
        simp only [Option.bind_eq_bind, Option.some_bind]
        exact process_mint_to_factor invoke accounts _ []
    · -- 27: burn
      simp only [process_instruction, List.isEmpty_cons, Bool.false_eq_true, if_false,
        List.getElem?_cons_zero, Option.bind_eq_bind, Option.some_bind,
        List.drop_succ_cons, List.drop_zero]
      split_ifs with hd
      · exact Or.inl ⟨Except.error ProgramError.invalidInstructionData, rfl, err_validation _ (by simp)⟩
      · unfold u64Read
        rw [if_pos (by omega : 8 ≤ data.length)]
        simp only [Option.bind_eq_bind, Option.some_bind]
        exact process_burn_factor invoke accounts _ []
    · -- 28: close account
      simp only [process_instruction, List.isEmpty_cons, Bool.false_eq_true, if_false,
        List.getElem?_cons_zero, Option.bind_eq_bind, Option.some_bind,
        List.drop_succ_cons, List.drop_zero]
      exact process_close_account_factor invoke accounts []
    · -- 29: freeze
      simp only [process_instruction, List.isEmpty_cons, Bool.false_eq_true, if_false,
        List.getElem?_cons_zero, Option.bind_eq_bind, Option.some_bind,
        List.drop_succ_cons, List.drop_zero]
      exact process_freeze_account_factor invoke accounts []
    · -- 30: thaw
      simp only [process_instruction, List.isEmpty_cons, Bool.false_eq_true, if_false,
        List.getElem?_cons_zero, Option.bind_eq_bind, Option.some_bind,
        List.drop_succ_cons, List.drop_zero]
      exact process_thaw_account_factor invoke accounts []
    · -- 31: transfer checked
      simp only [process_instruction, List.isEmpty_cons, Bool.false_eq_true, if_false,
        List.getElem?_cons_zero, Option.bind_eq_bind, Option.some_bind,
        List.drop_succ_cons, List.drop_zero]
      split_ifs with hd
      · exact Or.inl ⟨Except.error ProgramError.invalidInstructionData, rfl, err_validation _ (by simp)⟩
      · unfold u64Read
        rw [if_pos (by omega : 8 ≤ data.length),
          List.getElem?_eq_getElem (by omega : 8 < data.length)]
        simp only [Option.bind_eq_bind, Option.some_bind]
        exact process_transfer_checked_factor invoke accounts _ _ []
    · -- 32: approve checked
      simp only [process_instruction, List.isEmpty_cons, Bool.false_eq_true, if_false,
        List.getElem?_cons_zero, Option.bind_eq_bind, Option.some_bind,
        List.drop_succ_cons, List.drop_zero]
      split_ifs with hd
      · exact Or.inl ⟨Except.error ProgramError.invalidInstructionData, rfl, err_validation _ (by simp)⟩
      · unfold u64Read
        rw [if_pos (by omega : 8 ≤ data.length),
          List.getElem?_eq_getElem (by omega : 8 < data.length)]
        simp only [Option.bind_eq_bind, Option.some_bind]
        exact process_approve_checked_factor invoke accounts _ _ []
    · -- 33: mint to checked
      simp only [process_instruction, List.isEmpty_cons, Bool.false_eq_true, if_false,
        List.getElem?_cons_zero, Option.bind_eq_bind, Option.some_bind,
        List.drop_succ_cons, List.drop_zero]
      split_ifs with hd
      · exact Or.inl ⟨Except.error ProgramError.invalidInstructionData, rfl, err_validation _ (by simp)⟩
      · unfold u64Read
        rw [if_pos (by omega : 8 ≤ data.length),
          List.getElem?_eq_getElem (by omega : 8 < data.length)]
        simp only [Option.bind_eq_bind, Option.some_bind]
        exact process_mint_to_checked_factor invoke accounts _ _ []
    · -- 34: burn checked
      simp only [process_instruction, List.isEmpty_cons, Bool.false_eq_true, if_false,
        List.getElem?_cons_zero, Option.bind_eq_bind, Option.some_bind,
        List.drop_succ_cons, List.drop_zero]
      split_ifs with hd
      · exact Or.inl ⟨Except.error ProgramError.invalidInstructionData, rfl, err_validation _ (by simp)⟩
      · unfold u64Read
        rw [if_pos (by omega : 8 ≤ data.length),
          List.getElem?_eq_getElem (by omega : 8 < data.length)]
        simp only [Option.bind_eq_bind, Option.some_bind]
        exact process_burn_checked_factor invoke accounts _ _ []
    · -- 35: sync native
      simp only [process_instruction, List.isEmpty_cons, Bool.false_eq_true, if_false,
        List.getElem?_cons_zero, Option.bind_eq_bind, Option.some_bind,
        List.drop_succ_cons, List.drop_zero]
      exact process_sync_native_factor invoke accounts
  · obtain ⟨m, rfl⟩ : ∃ m, d = m + 36 := ⟨d - 36, by omega⟩
    refine Or.inl ⟨Except.error ProgramError.invalidInstructionData, ?_, err_validation _ (by simp)⟩
    simp only [process_instruction, List.isEmpty_cons, Bool.false_eq_true, if_false,
      List.getElem?_cons_zero, Option.bind_eq_bind, Option.some_bind,
      List.drop_succ_cons, List.drop_zero]
    rfl

/-- With fewer than 2 accounts, process_transfer stops at its first check. -/
theorem process_transfer_short (invoke : Oracle) (accounts : Accounts) (lamports : Nat) (signers : List Signer)
    (h : accounts.length < 2) :
    process_transfer invoke accounts lamports signers =
      some (Except.error ProgramError.notEnoughAccountKeys, [], accounts) := by
  unfold process_transfer
  rw [if_pos h]
  rfl

/-- With fewer than 2 accounts, process_create_account stops at its first check. -/
theorem process_create_account_short (invoke : Oracle) (accounts : Accounts) (lamports space : Nat) (owner : List Nat) (signers : List Signer)
    (h : accounts.length < 2) :
    process_create_account invoke accounts lamports space owner signers =
      some (Except.error ProgramError.notEnoughAccountKeys, [], accounts) := by
  unfold process_create_account
  rw [if_pos h]
  rfl

/-- With fewer than 3 accounts, process_advance_nonce_account stops at its first check. -/
theorem process_advance_nonce_account_short (invoke : Oracle) (accounts : Accounts) (signers : List Signer)
    (h : accounts.length < 3) :
    process_advance_nonce_account invoke accounts signers =
      some (Except.error ProgramError.notEnoughAccountKeys, [], accounts) := by
  unfold process_advance_nonce_account
  rw [if_pos h]
  rfl

/-- With fewer than 5 accounts, process_withdraw_nonce_account stops at its first check. -/
theorem process_withdraw_nonce_account_short (invoke : Oracle) (accounts : Accounts) (lamports : Nat) (signers : List Signer)
    (h : accounts.length < 5) :
    process_withdraw_nonce_account invoke accounts lamports signers =
      some (Except.error ProgramError.notEnoughAccountKeys, [], accounts) := by
  unfold process_withdraw_nonce_account
  rw [if_pos h]
  rfl

/-- With fewer than 3 accounts, process_init_nonce_account stops at its first check. -/
theorem process_init_nonce_account_short (invoke : Oracle) (accounts : Accounts) (authority : List Nat)
    (h : accounts.length < 3) :
    process_init_nonce_account invoke accounts authority =
      some (Except.error ProgramError.notEnoughAccountKeys, [], accounts) := by
  unfold process_init_nonce_account
  rw [if_pos h]
  rfl

/-- With fewer than 2 accounts, process_authorize_nonce_account stops at its first check. -/
theorem process_authorize_nonce_account_short (invoke : Oracle) (accounts : Accounts) (new_authority : List Nat) (signers : List Signer)
    (h : accounts.length < 2) :
    process_authorize_nonce_account invoke accounts new_authority signers =
      some (Except.error ProgramError.notEnoughAccountKeys, [], accounts) := by
  unfold process_authorize_nonce_account
  rw [if_pos h]
  rfl

/-- With fewer than 4 accounts, process_init_account stops at its first check. -/
theorem process_init_account_short (invoke : Oracle) (accounts : Accounts)
    (h : accounts.length < 4) :
    process_init_account invoke accounts =
      some (Except.error ProgramError.notEnoughAccountKeys, [], accounts) := by
  unfold process_init_account
  rw [if_pos h]
  rfl

/-- With fewer than 2 accounts, process_token_transfer stops at its first check. -/
theorem process_token_transfer_short (invoke : Oracle) (accounts : Accounts) (amount : Nat) (signers : List Signer)
    (h : accounts.length < 2) :
    process_token_transfer invoke accounts amount signers =
      some (Except.error ProgramError.notEnoughAccountKeys, [], accounts) := by
  unfold process_token_transfer
  rw [if_pos h]
  rfl

/-- With fewer than 3 accounts, process_approve stops at its first check. -/
theorem process_approve_short (invoke : Oracle) (accounts : Accounts) (amount : Nat) (signers : List Signer)
    (h : accounts.length < 3) :
    process_approve invoke accounts amount signers =
      some (Except.error ProgramError.notEnoughAccountKeys, [], accounts) := by
  unfold process_approve
  rw [if_pos h]
  rfl

/-- With fewer than 2 accounts, process_revoke stops at its first check. -/
theorem process_revoke_short (invoke : Oracle) (accounts : Accounts) (signers : List Signer)
    (h : accounts.length < 2) :
    process_revoke invoke accounts signers =
      some (Except.error ProgramError.notEnoughAccountKeys, [], accounts) := by
  unfold process_revoke
  rw [if_pos h]
  rfl

/-- With fewer than 2 accounts, process_set_authority stops at its first check. -/
theorem process_set_authority_short (invoke : Oracle) (accounts : Accounts) (authority_type : AuthorityType) (new_authority : Option (List Nat)) (signers : List Signer)
    (h : accounts.length < 2) :
    process_set_authority invoke accounts authority_type new_authority signers =
      some (Except.error ProgramError.notEnoughAccountKeys, [], accounts) := by
  unfold process_set_authority
  rw [if_pos h]
  rfl

/-- With fewer than 3 accounts, process_mint_to stops at its first check. -/
theorem process_mint_to_short (invoke : Oracle) (accounts : Accounts) (amount : Nat) (signers : List Signer)
    (h : accounts.length < 3) :
    process_mint_to invoke accounts amount signers =
      some (Except.error ProgramError.notEnoughAccountKeys, [], accounts) := by
  unfold process_mint_to
  rw [if_pos h]
  rfl

/-- With fewer than 3 accounts, process_burn stops at its first check. -/
theorem process_burn_short (invoke : Oracle) (accounts : Accounts) (amount : Nat) (signers : List Signer)
    (h : accounts.length < 3) :
    process_burn invoke accounts amount signers =
      some (Except.error ProgramError.notEnoughAccountKeys, [], accounts) := by
  unfold process_burn
  rw [if_pos h]
  rfl

/-- With fewer than 3 accounts, process_close_account stops at its first check. -/
theorem process_close_account_short (invoke : Oracle) (accounts : Accounts) (signers : List Signer)
    (h : accounts.length < 3) :
    process_close_account invoke accounts signers =
      some (Except.error ProgramError.notEnoughAccountKeys, [], accounts) := by
  unfold process_close_account
  rw [if_pos h]
  rfl

/-- With fewer than 3 accounts, process_freeze_account stops at its first check. -/
theorem process_freeze_account_short (invoke : Oracle) (accounts : Accounts) (signers : List Signer)
    (h : accounts.length < 3) :
    process_freeze_account invoke accounts signers =
      some (Except.error ProgramError.notEnoughAccountKeys, [], accounts) := by
  unfold process_freeze_account
  rw [if_pos h]
  rfl

/-- With fewer than 3 accounts, process_thaw_account stops at its first check. -/
theorem process_thaw_account_short (invoke : Oracle) (accounts : Accounts) (signers : List Signer)
    (h : accounts.length < 3) :
    process_thaw_account invoke accounts signers =
      some (Except.error ProgramError.notEnoughAccountKeys, [], accounts) := by
  unfold process_thaw_account
  rw [if_pos h]
  rfl

/-- With fewer than 4 accounts, process_transfer_checked stops at its first check. -/
theorem process_transfer_checked_short (invoke : Oracle) (accounts : Accounts) (amount decimals : Nat) (signers : List Signer)
    (h : accounts.length < 4) :
    process_transfer_checked invoke accounts amount decimals signers =
      some (Except.error ProgramError.notEnoughAccountKeys, [], accounts) := by
  unfold process_transfer_checked
  rw [if_pos h]
  rfl

/-- With fewer than 4 accounts, process_approve_checked stops at its first check. -/
theorem process_approve_checked_short (invoke : Oracle) (accounts : Accounts) (amount decimals : Nat) (signers : List Signer)
    (h : accounts.length < 4) :
    process_approve_checked invoke accounts amount decimals signers =
      some (Except.error ProgramError.notEnoughAccountKeys, [], accounts) := by
  unfold process_approve_checked
  rw [if_pos h]
  rfl

/-- With fewer than 3 accounts, process_mint_to_checked stops at its first check. -/
theorem process_mint_to_checked_short (invoke : Oracle) (accounts : Accounts) (amount decimals : Nat) (signers : List Signer)
    (h : accounts.length < 3) :
    process_mint_to_checked invoke accounts amount decimals signers =
      some (Except.error ProgramError.notEnoughAccountKeys, [], accounts) := by
  unfold process_mint_to_checked
  rw [if_pos h]
  rfl

/-- With fewer than 3 accounts, process_burn_checked stops at its first check. -/
theorem process_burn_checked_short (invoke : Oracle) (accounts : Accounts) (amount decimals : Nat) (signers : List Signer)
    (h : accounts.length < 3) :
    process_burn_checked invoke accounts amount decimals signers =
      some (Except.error ProgramError.notEnoughAccountKeys, [], accounts) := by
  unfold process_burn_checked
  rw [if_pos h]
  rfl

/-- With fewer than 1 accounts, process_sync_native stops at its first check. -/
theorem process_sync_native_short (invoke : Oracle) (accounts : Accounts)
    (h : accounts.length < 1) :
    process_sync_native invoke accounts =
      some (Except.error ProgramError.notEnoughAccountKeys, [], accounts) := by
  unfold process_sync_native
  rw [if_pos h]
  rfl

/-- With no accounts, process_assign stops at its first check. -/
theorem process_assign_short (invoke : Oracle) (accounts : Accounts) (owner : List Nat) (signers : List Signer)
    (h : accounts.length < 1) :
    process_assign invoke accounts owner signers =
      some (Except.error ProgramError.notEnoughAccountKeys, [], accounts) := by
  rcases accounts with _ | ⟨a, t⟩
  · unfold process_assign
    rw [if_pos (by simp)]
    rfl
  · simp at h

/-- With no accounts, process_allocate stops at its first check. -/
theorem process_allocate_short (invoke : Oracle) (accounts : Accounts) (space : Nat) (signers : List Signer)
    (h : accounts.length < 1) :
    process_allocate invoke accounts space signers =
      some (Except.error ProgramError.notEnoughAccountKeys, [], accounts) := by
  rcases accounts with _ | ⟨a, t⟩
  · unfold process_allocate
    rw [if_pos (by simp)]
    rfl
  · simp at h

/-- With no accounts, process_update_nonce_account stops at its first check. -/
theorem process_update_nonce_account_short (invoke : Oracle) (accounts : Accounts)
    (h : accounts.length < 1) :
    process_update_nonce_account invoke accounts =
      some (Except.error ProgramError.notEnoughAccountKeys, [], accounts) := by
  rcases accounts with _ | ⟨a, t⟩
  · unfold process_update_nonce_account
    rw [if_pos (by simp)]
    rfl
  · simp at h

set_option maxHeartbeats 3200000 in
/-- C1 (amended): for every opcode with a minimum account count, and every
instruction buffer selecting it whose payload passes the decode checks
that precede the account checks, dispatching with fewer accounts than the
minimum fails with NotEnoughAccounts — except for init-mint
(discriminator 20), whose fused guard reports InvalidInstructionData
instead. -/
theorem dispatch_below_min_accounts (invoke : Oracle) (d : Nat) (data : List Nat)
    (accounts : Accounts) (hp : payloadOk d data = true)
    (ha : accounts.length < minAccounts d) :
    process_instruction invoke accounts (d :: data) =
      some (Except.error (if d = 20 then ProgramError.invalidInstructionData
        else ProgramError.notEnoughAccountKeys), [], accounts) := by
  rcases Nat.lt_or_ge d 36 with h36 | h36
  · interval_cases d
    · -- 0
      simp only [payloadOk, decide_eq_true_eq] at hp
      norm_num [minAccounts] at ha
      rw [if_neg (by norm_num : ¬(0 = 20))]
      simp only [process_instruction, List.isEmpty_cons, Bool.false_eq_true, if_false,
        List.getElem?_cons_zero, Option.bind_eq_bind, Option.some_bind,
        List.drop_succ_cons, List.drop_zero]
      rw [if_neg (by omega)]
      unfold read32
      rw [if_pos (by omega : 0 + 32 ≤ data.length)]
      simp only [Option.bind_eq_bind, Option.some_bind]
      rw [process_assign_short invoke accounts _ [] (by simp [ha])]
    · -- 1
      simp only [payloadOk, decide_eq_true_eq] at hp
      norm_num [minAccounts] at ha
      rw [if_neg (by norm_num : ¬(1 = 20))]
      simp only [process_instruction, List.isEmpty_cons, Bool.false_eq_true, if_false,
        List.getElem?_cons_zero, Option.bind_eq_bind, Option.some_bind,
        List.drop_succ_cons, List.drop_zero]
      rw [if_neg (by omega)]
      unfold u64Read
      rw [if_pos (by omega : 8 ≤ data.length)]
      simp only [Option.bind_eq_bind, Option.some_bind]
      rw [process_transfer_short invoke accounts _ [] ha]
    · -- 2
      simp only [payloadOk, decide_eq_true_eq] at hp
      norm_num [minAccounts] at ha
      rw [if_neg (by norm_num : ¬(2 = 20))]
      simp only [process_instruction, List.isEmpty_cons, Bool.false_eq_true, if_false,
        List.getElem?_cons_zero, Option.bind_eq_bind, Option.some_bind,
        List.drop_succ_cons, List.drop_zero]
      rw [if_neg (by omega)]
      unfold u64Read read32
      rw [if_pos (by omega : 8 ≤ data.length),
        if_pos (show 8 ≤ (data.drop 8).length by rw [List.length_drop]; omega),
        if_pos (by omega : 16 + 32 ≤ data.length)]
      simp only [Option.bind_eq_bind, Option.some_bind]
      rw [process_create_account_short invoke accounts _ _ _ [] ha]
    · -- 3
      simp only [payloadOk, decide_eq_true_eq] at hp
      norm_num [minAccounts] at ha
      rw [if_neg (by norm_num : ¬(3 = 20))]
      simp only [process_instruction, List.isEmpty_cons, Bool.false_eq_true, if_false,
        List.getElem?_cons_zero, Option.bind_eq_bind, Option.some_bind,
        List.drop_succ_cons, List.drop_zero]
      rw [if_neg (by omega)]
      unfold u64Read
      rw [if_pos (by omega : 8 ≤ data.length)]
      simp only [Option.bind_eq_bind, Option.some_bind]
      rw [process_allocate_short invoke accounts _ [] (by simp [ha])]
    · -- 4: no account minimum
      norm_num [minAccounts] at ha
    · -- 5: no account minimum
      norm_num [minAccounts] at ha
    · -- 6: no account minimum
      norm_num [minAccounts] at ha
    · -- 7
      norm_num [minAccounts] at ha
      rw [if_neg (by norm_num : ¬(7 = 20))]
      simp only [process_instruction, List.isEmpty_cons, Bool.false_eq_true, if_false,
        List.getElem?_cons_zero, Option.bind_eq_bind, Option.some_bind,
        List.drop_succ_cons, List.drop_zero]
      rw [process_advance_nonce_account_short invoke accounts [] ha]
    · -- 8
      simp only [payloadOk, decide_eq_true_eq] at hp
      norm_num [minAccounts] at ha
      rw [if_neg (by norm_num : ¬(8 = 20))]
      simp only [process_instruction, List.isEmpty_cons, Bool.false_eq_true, if_false,
        List.getElem?_cons_zero, Option.bind_eq_bind, Option.some_bind,
        List.drop_succ_cons, List.drop_zero]
      rw [if_neg (by omega)]
      unfold u64Read
      rw [if_pos (by omega : 8 ≤ data.length)]
      simp only [Option.bind_eq_bind, Option.some_bind]
      rw [process_withdraw_nonce_account_short invoke accounts _ [] ha]
    · -- 9
      simp only [payloadOk, decide_eq_true_eq] at hp
      norm_num [minAccounts] at ha
      rw [if_neg (by norm_num : ¬(9 = 20))]
      simp only [process_instruction, List.isEmpty_cons, Bool.false_eq_true, if_false,
        List.getElem?_cons_zero, Option.bind_eq_bind, Option.some_bind,
        List.drop_succ_cons, List.drop_zero]
      rw [if_neg (by omega)]
      unfold read32
      rw [if_pos (by omega : 0 + 32 ≤ data.length)]
      simp only [Option.bind_eq_bind, Option.some_bind]
      rw [process_init_nonce_account_short invoke accounts _ ha]
    · -- 10
      simp only [payloadOk, decide_eq_true_eq] at hp
      norm_num [minAccounts] at ha
      rw [if_neg (by norm_num : ¬(10 = 20))]
      simp only [process_instruction, List.isEmpty_cons, Bool.false_eq_true, if_false,
        List.getElem?_cons_zero, Option.bind_eq_bind, Option.some_bind,
        List.drop_succ_cons, List.drop_zero]
      rw [if_neg (by omega)]
      unfold read32
      rw [if_pos (by omega : 0 + 32 ≤ data.length)]
      simp only [Option.bind_eq_bind, Option.some_bind]
      rw [process_authorize_nonce_account_short invoke accounts _ [] ha]
    · -- 11: no account minimum
      norm_num [minAccounts] at ha
    · -- 12
      norm_num [minAccounts] at ha
      rw [if_neg (by norm_num : ¬(12 = 20))]
      simp only [process_instruction, List.isEmpty_cons, Bool.false_eq_true, if_false,
        List.getElem?_cons_zero, Option.bind_eq_bind, Option.some_bind,
        List.drop_succ_cons, List.drop_zero]
      rw [process_update_nonce_account_short invoke accounts (by simp [ha])]
    · -- 13: no account minimum
      norm_num [minAccounts] at ha
    · -- 14: no account minimum
      norm_num [minAccounts] at ha
    · -- 15: no account minimum
      norm_num [minAccounts] at ha
    · -- 16: no account minimum
      norm_num [minAccounts] at ha
    · -- 17: no account minimum
      norm_num [minAccounts] at ha
    · -- 18: no account minimum
      norm_num [minAccounts] at ha
    · -- 19: no account minimum
      norm_num [minAccounts] at ha
    · -- 20: fused dispatcher guard
      norm_num [minAccounts] at ha
      rcases data with _ | ⟨decByte, dtail⟩
      · simp [payloadOk] at hp
      · simp only [process_instruction, List.isEmpty_cons, Bool.false_eq_true,
          Bool.false_or, if_false, List.getElem?_cons_zero, Option.bind_eq_bind,
          Option.some_bind, List.drop_succ_cons, List.drop_zero]
        rw [if_pos (by simp [ha])]
        norm_num
    · -- 21
      norm_num [minAccounts] at ha
      rw [if_neg (by norm_num : ¬(21 = 20))]
      simp only [process_instruction, List.isEmpty_cons, Bool.false_eq_true, if_false,
        List.getElem?_cons_zero, Option.bind_eq_bind, Option.some_bind,
        List.drop_succ_cons, List.drop_zero]
      rw [process_init_account_short invoke accounts ha]
    · -- 22
      simp only [payloadOk, decide_eq_true_eq] at hp
      norm_num [minAccounts] at ha
      rw [if_neg (by norm_num : ¬(22 = 20))]
      simp only [process_instruction, List.isEmpty_cons, Bool.false_eq_true, if_false,
        List.getElem?_cons_zero, Option.bind_eq_bind, Option.some_bind,
        List.drop_succ_cons, List.drop_zero]
      rw [if_neg (by omega)]
      unfold u64Read
      rw [if_pos (by omega : 8 ≤ data.length)]
      simp only [Option.bind_eq_bind, Option.some_bind]
      rw [process_token_transfer_short invoke accounts _ [] ha]
    · -- 23
      simp only [payloadOk, decide_eq_true_eq] at hp
      norm_num [minAccounts] at ha
      rw [if_neg (by norm_num : ¬(23 = 20))]
      simp only [process_instruction, List.isEmpty_cons, Bool.false_eq_true, if_false,
        List.getElem?_cons_zero, Option.bind_eq_bind, Option.some_bind,
        List.drop_succ_cons, List.drop_zero]
      rw [if_neg (by omega)]
      unfold u64Read
      rw [if_pos (by omega : 8 ≤ data.length)]
      simp only [Option.bind_eq_bind, Option.some_bind]
      rw [process_approve_short invoke accounts _ [] ha]
    · -- 24
      norm_num [minAccounts] at ha
      rw [if_neg (by norm_num : ¬(24 = 20))]
      simp only [process_instruction, List.isEmpty_cons, Bool.false_eq_true, if_false,
        List.getElem?_cons_zero, Option.bind_eq_bind, Option.some_bind,
        List.drop_succ_cons, List.drop_zero]
      rw [process_revoke_short invoke accounts [] ha]
    · -- 25
      norm_num [minAccounts] at ha
      rw [if_neg (by norm_num : ¬(25 = 20))]
      rcases data with _ | ⟨b, tail⟩
      · simp [payloadOk] at hp
      · simp only [payloadOk, List.head?_cons, decide_eq_true_eq] at hp
        simp only [process_instruction, List.isEmpty_cons, Bool.false_eq_true, if_false,
          List.getElem?_cons_zero, Option.bind_eq_bind, Option.some_bind,
          List.drop_succ_cons, List.drop_zero]
        interval_cases b <;> {
          split_ifs with hl
          · unfold read32
            rw [if_pos (by simp only [List.length_cons] at hl ⊢; omega)]
            simp only [pure, Option.bind_eq_bind, Option.some_bind]
            rw [process_set_authority_short invoke accounts _ _ [] ha]
          · simp only [pure, Option.bind_eq_bind, Option.some_bind]
            rw [process_set_authority_short invoke accounts _ _ [] ha]
        }
    · -- 26
      simp only [payloadOk, decide_eq_true_eq] at hp
      norm_num [minAccounts] at ha
      rw [if_neg (by norm_num : ¬(26 = 20))]
      simp only [process_instruction, List.isEmpty_cons, Bool.false_eq_true, if_false,
        List.getElem?_cons_zero, Option.bind_eq_bind, Option.some_bind,
        List.drop_succ_cons, List.drop_zero]
      rw [if_neg (by omega)]
      unfold u64Read
      rw [if_pos (by omega : 8 ≤ data.length)]
      simp only [Option.bind_eq_bind, Option.some_bind]
      rw [process_mint_to_short invoke accounts _ [] ha]
    · -- 27
      simp only [payloadOk, decide_eq_true_eq] at hp
      norm_num [minAccounts] at ha
      rw [if_neg (by norm_num : ¬(27 = 20))]
      simp only [process_instruction, List.isEmpty_cons, Bool.false_eq_true, if_false,
        List.getElem?_cons_zero, Option.bind_eq_bind, Option.some_bind,
        List.drop_succ_cons, List.drop_zero]
      rw [if_neg (by omega)]
      unfold u64Read
      rw [if_pos (by omega : 8 ≤ data.length)]
      simp only [Option.bind_eq_bind, Option.some_bind]
      rw [process_burn_short invoke accounts _ [] ha]
    · -- 28
      norm_num [minAccounts] at ha
      rw [if_neg (by norm_num : ¬(28 = 20))]
      simp only [process_instruction, List.isEmpty_cons, Bool.false_eq_true, if_false,
        List.getElem?_cons_zero, Option.bind_eq_bind, Option.some_bind,
        List.drop_succ_cons, List.drop_zero]
      rw [process_close_account_short invoke accounts [] ha]
    · -- 29
      norm_num [minAccounts] at ha
      rw [if_neg (by norm_num : ¬(29 = 20))]
      simp only [process_instruction, List.isEmpty_cons, Bool.false_eq_true, if_false,
        List.getElem?_cons_zero, Option.bind_eq_bind, Option.some_bind,
        List.drop_succ_cons, List.drop_zero]
      rw [process_freeze_account_short invoke accounts [] ha]
    · -- 30
      norm_num [minAccounts] at ha
      rw [if_neg (by norm_num : ¬(30 = 20))]
      simp only [process_instruction, List.isEmpty_cons, Bool.false_eq_true, if_false,
        List.getElem?_cons_zero, Option.bind_eq_bind, Option.some_bind,
        List.drop_succ_cons, List.drop_zero]
      rw [process_thaw_account_short invoke accounts [] ha]
    · -- 31
      simp only [payloadOk, decide_eq_true_eq] at hp
      norm_num [minAccounts] at ha
      rw [if_neg (by norm_num : ¬(31 = 20))]
      simp only [process_instruction, List.isEmpty_cons, Bool.false_eq_true, if_false,
        List.getElem?_cons_zero, Option.bind_eq_bind, Option.some_bind,
        List.drop_succ_cons, List.drop_zero]
      rw [if_neg (by omega)]
      unfold u64Read
      rw [if_pos (by omega : 8 ≤ data.length),
        List.getElem?_eq_getElem (by omega : 8 < data.length)]
      simp only [Option.bind_eq_bind, Option.some_bind]
      rw [process_transfer_checked_short invoke accounts _ _ [] ha]
    · -- 32
      simp only [payloadOk, decide_eq_true_eq] at hp
      norm_num [minAccounts] at ha
      rw [if_neg (by norm_num : ¬(32 = 20))]
      simp only [process_instruction, List.isEmpty_cons, Bool.false_eq_true, if_false,
        List.getElem?_cons_zero, Option.bind_eq_bind, Option.some_bind,
        List.drop_succ_cons, List.drop_zero]
      rw [if_neg (by omega)]
      unfold u64Read
      rw [if_pos (by omega : 8 ≤ data.length),
        List.getElem?_eq_getElem (by omega : 8 < data.length)]
      simp only [Option.bind_eq_bind, Option.some_bind]
      rw [process_approve_checked_short invoke accounts _ _ [] ha]
    · -- 33
      simp only [payloadOk, decide_eq_true_eq] at hp
      norm_num [minAccounts] at ha
      rw [if_neg (by norm_num : ¬(33 = 20))]
      simp only [process_instruction, List.isEmpty_cons, Bool.false_eq_true, if_false,
        List.getElem?_cons_zero, Option.bind_eq_bind, Option.some_bind,
        List.drop_succ_cons, List.drop_zero]
      rw [if_neg (by omega)]
      unfold u64Read
      rw [if_pos (by omega : 8 ≤ data.length),
        List.getElem?_eq_getElem (by omega : 8 < data.length)]
      simp only [Option.bind_eq_bind, Option.some_bind]
      rw [process_mint_to_checked_short invoke accounts _ _ [] ha]
    · -- 34
      simp only [payloadOk, decide_eq_true_eq] at hp
      norm_num [minAccounts] at ha
      rw [if_neg (by norm_num : ¬(34 = 20))]
      simp only [process_instruction, List.isEmpty_cons, Bool.false_eq_true, if_false,
        List.getElem?_cons_zero, Option.bind_eq_bind, Option.some_bind,
        List.drop_succ_cons, List.drop_zero]
      rw [if_neg (by omega)]
      unfold u64Read
      rw [if_pos (by omega : 8 ≤ data.length),
        List.getElem?_eq_getElem (by omega : 8 < data.length)]
      simp only [Option.bind_eq_bind, Option.some_bind]
      rw [process_burn_checked_short invoke accounts _ _ [] ha]
    · -- 35
      norm_num [minAccounts] at ha
      rw [if_neg (by norm_num : ¬(35 = 20))]
      simp only [process_instruction, List.isEmpty_cons, Bool.false_eq_true, if_false,
        List.getElem?_cons_zero, Option.bind_eq_bind, Option.some_bind,
        List.drop_succ_cons, List.drop_zero]
      rw [process_sync_native_short invoke accounts (by simp [ha])]
  · obtain ⟨m, rfl⟩ : ∃ m, d = m + 36 := ⟨d - 36, by omega⟩
    have h0 : minAccounts (m + 36) = 0 := by rfl
    rw [h0] at ha
    exact absurd ha (by omega)


/-- Decoding the little-endian encoding of a 64-bit value gives the value
back. -/
theorem u64_roundtrip_decode_encode (x : Nat) (hx : x < 2 ^ 64) :
    u64FromLeBytes (u64ToLeBytes x) = x := by
  simp only [u64FromLeBytes, u64ToLeBytes, List.foldr]
  norm_num
  omega

/-- Encoding the decoded value of an 8-byte list gives the list back. -/
theorem u64_roundtrip_encode_decode (l : List Nat) (h8 : l.length = 8)
    (hb : ∀ b ∈ l, b < 256) :
    u64ToLeBytes (u64FromLeBytes l) = l := by
  rcases l with _ | ⟨b0, _ | ⟨b1, _ | ⟨b2, _ | ⟨b3, _ | ⟨b4, _ | ⟨b5, _ | ⟨b6, _ | ⟨b7, _ | ⟨b8, t⟩⟩⟩⟩⟩⟩⟩⟩⟩ <;>
    simp at h8
  have hb0 : b0 < 256 := hb b0 (by simp)
  have hb1 : b1 < 256 := hb b1 (by simp)
  have hb2 : b2 < 256 := hb b2 (by simp)
  have hb3 : b3 < 256 := hb b3 (by simp)
  have hb4 : b4 < 256 := hb b4 (by simp)
  have hb5 : b5 < 256 := hb b5 (by simp)
  have hb6 : b6 < 256 := hb b6 (by simp)
  have hb7 : b7 < 256 := hb b7 (by simp)
  simp only [u64FromLeBytes, u64ToLeBytes, List.foldr, List.cons.injEq, and_true]
  norm_num
  refine ⟨?_, ?_, ?_, ?_, ?_, ?_, ?_, ?_⟩ <;> omega


theorem process_transfer_good (invoke : Oracle) (a0 a1 : AccountView)
    (rest : Accounts) (lamports : Nat)
    (h0 : a0.is_signer = true) (h1 : a0.is_writable = true)
    (h2 : a1.is_writable = true) :
    process_transfer invoke (a0 :: a1 :: rest) lamports [] =
      some (runInvoke invoke (Invocation.transferIx a0 a1 lamports) []
        (a0 :: a1 :: rest)) := by
  unfold process_transfer
  rw [if_neg (by simp)]
  simp [h0, h1, h2]

theorem dispatch_transfer_reaches (invoke : Oracle) (a0 a1 : AccountView)
    (rest : Accounts) (payload : List Nat) (hlen : 8 ≤ payload.length)
    (h0 : a0.is_signer = true) (h1 : a0.is_writable = true)
    (h2 : a1.is_writable = true) :
    process_instruction invoke (a0 :: a1 :: rest) (1 :: payload) =
      some (runInvoke invoke
        (Invocation.transferIx a0 a1 (u64FromLeBytes (payload.take 8))) []
        (a0 :: a1 :: rest)) := by
  simp only [process_instruction, List.isEmpty_cons, Bool.false_eq_true, if_false,
    List.getElem?_cons_zero, Option.bind_eq_bind, Option.some_bind,
    List.drop_succ_cons, List.drop_zero]
  rw [if_neg (by omega)]
  unfold u64Read
  rw [if_pos hlen]
  simp only [Option.bind_eq_bind, Option.some_bind]
  exact process_transfer_good invoke a0 a1 rest _ h0 h1 h2

theorem process_set_authority_good (invoke : Oracle) (a0 a1 : AccountView)
    (rest : Accounts) (ty : AuthorityType) (na : Option (List Nat))
    (h0 : a0.is_writable = true) (h1 : a1.is_signer = true) :
    process_set_authority invoke (a0 :: a1 :: rest) ty na [] =
      some (runInvoke invoke (Invocation.setAuthorityIx a0 a1 ty na) []
        (a0 :: a1 :: rest)) := by
  unfold process_set_authority
  rw [if_neg (by simp)]
  simp [h0, h1]

theorem dispatch_set_authority_decode (invoke : Oracle) (a0 a1 : AccountView)
    (rest : Accounts) (b : Nat) (tail : List Nat) (hb : b < 4)
    (h0 : a0.is_writable = true) (h1 : a1.is_signer = true) :
    ∃ ty : AuthorityType,
      process_instruction invoke (a0 :: a1 :: rest) (25 :: b :: tail) =
        some (runInvoke invoke
          (Invocation.setAuthorityIx a0 a1 ty
            (if 33 ≤ (b :: tail).length then some (tail.take 32) else none)) []
          (a0 :: a1 :: rest)) := by
  simp only [process_instruction, List.isEmpty_cons, Bool.false_eq_true, if_false,
    List.getElem?_cons_zero, Option.bind_eq_bind, Option.some_bind,
    List.drop_succ_cons, List.drop_zero]
  interval_cases b
  · refine ⟨AuthorityType.mintTokens, ?_⟩
    split_ifs with hl
    · unfold read32
      rw [if_pos (by simp only [List.length_cons] at hl ⊢; omega)]
      simp only [pure, Option.bind_eq_bind, Option.some_bind, List.drop_succ_cons,
        List.drop_zero]
      exact process_set_authority_good invoke a0 a1 rest _ _ h0 h1
    · simp only [pure, Option.bind_eq_bind, Option.some_bind]
      exact process_set_authority_good invoke a0 a1 rest _ _ h0 h1
  · refine ⟨AuthorityType.freezeAccount, ?_⟩
    split_ifs with hl
    · unfold read32
      rw [if_pos (by simp only [List.length_cons] at hl ⊢; omega)]
      simp only [pure, Option.bind_eq_bind, Option.some_bind, List.drop_succ_cons,
        List.drop_zero]
      exact process_set_authority_good invoke a0 a1 rest _ _ h0 h1
    · simp only [pure, Option.bind_eq_bind, Option.some_bind]
      exact process_set_authority_good invoke a0 a1 rest _ _ h0 h1
  · refine ⟨AuthorityType.accountOwner, ?_⟩
    split_ifs with hl
    · unfold read32
      rw [if_pos (by simp only [List.length_cons] at hl ⊢; omega)]
      simp only [pure, Option.bind_eq_bind, Option.some_bind, List.drop_succ_cons,
        List.drop_zero]
      exact process_set_authority_good invoke a0 a1 rest _ _ h0 h1
    · simp only [pure, Option.bind_eq_bind, Option.some_bind]
      exact process_set_authority_good invoke a0 a1 rest _ _ h0 h1
  · refine ⟨AuthorityType.closeAccount, ?_⟩
    split_ifs with hl
    · unfold read32
      rw [if_pos (by simp only [List.length_cons] at hl ⊢; omega)]
      simp only [pure, Option.bind_eq_bind, Option.some_bind, List.drop_succ_cons,
        List.drop_zero]
      exact process_set_authority_good invoke a0 a1 rest _ _ h0 h1
    · simp only [pure, Option.bind_eq_bind, Option.some_bind]
      exact process_set_authority_good invoke a0 a1 rest _ _ h0 h1

/-- C1 counterexample: with a one-byte payload and only two accounts, the
init-mint opcode (20) fails with InvalidInstructionData, not
NotEnoughAccounts; and with an empty payload and no accounts, the
balance-transfer opcode (1) also fails with InvalidInstructionData (the
payload check runs first), not NotEnoughAccounts. -/
theorem init_mint_account_shortfall_error :
    process_instruction okOracle [signerWritableAcct, writableAcct] [20, 0] =
      some (Except.error ProgramError.invalidInstructionData, [],
        [signerWritableAcct, writableAcct]) ∧
    process_instruction okOracle [] [1] =
      some (Except.error ProgramError.invalidInstructionData, [], []) ∧
    ProgramError.invalidInstructionData ≠ ProgramError.notEnoughAccountKeys :=
  ⟨rfl, rfl, by decide⟩

/-- C1 witness: the balance-transfer opcode with a well-formed 8-byte
payload and no accounts fails with NotEnoughAccounts. -/
theorem dispatch_below_min_accounts_witness :
    payloadOk 1 (List.replicate 8 0) = true ∧
    ([] : Accounts).length < minAccounts 1 ∧
    process_instruction okOracle [] (1 :: List.replicate 8 0) =
      some (Except.error (if 1 = 20 then ProgramError.invalidInstructionData
        else ProgramError.notEnoughAccountKeys), [], []) :=
  ⟨rfl, by decide,
    dispatch_below_min_accounts okOracle 1 (List.replicate 8 0) [] rfl (by decide)⟩

/-- C2: the four seed-based discriminators (4, 5, 6, 11) succeed for every
payload, account list and oracle, with no field parsed, no capability
checked, no primitive invocation (empty trace) and untouched accounts. -/
theorem seed_opcodes_noop :
    (∀ (invoke : Oracle) (accounts : Accounts) (data : List Nat),
      process_instruction invoke accounts (4 :: data) =
        some (Except.ok (), [], accounts)) ∧
    (∀ (invoke : Oracle) (accounts : Accounts) (data : List Nat),
      process_instruction invoke accounts (5 :: data) =
        some (Except.ok (), [], accounts)) ∧
    (∀ (invoke : Oracle) (accounts : Accounts) (data : List Nat),
      process_instruction invoke accounts (6 :: data) =
        some (Except.ok (), [], accounts)) ∧
    (∀ (invoke : Oracle) (accounts : Accounts) (data : List Nat),
      process_instruction invoke accounts (11 :: data) =
        some (Except.ok (), [], accounts)) := by
  refine ⟨?_, ?_, ?_, ?_⟩ <;> {
    intro invoke accounts data
    simp only [process_instruction, List.isEmpty_cons, Bool.false_eq_true, if_false,
      List.getElem?_cons_zero, Option.bind_eq_bind, Option.some_bind,
      List.drop_succ_cons, List.drop_zero]
    rfl
  }

set_option maxHeartbeats 1600000 in
/-- C3: every first byte outside the two recognized discriminator ranges
0 to 12 and 20 to 35 is rejected with the unknown-opcode error (encoded
as InvalidInstructionData), for every remaining buffer, account list and
oracle. -/
theorem unknown_discriminator_rejected (invoke : Oracle) (accounts : Accounts)
    (d : Nat) (data : List Nat) (hd : d < 256) (h1 : ¬d ≤ 12)
    (h2 : ¬(20 ≤ d ∧ d ≤ 35)) :
    process_instruction invoke accounts (d :: data) =
      some (Except.error ProgramError.invalidInstructionData, [], accounts) := by
  rcases Nat.lt_or_ge d 36 with h36 | h36
  · have h13 : 13 ≤ d := by omega
    have h19 : d ≤ 19 := by omega
    interval_cases d <;> {
      simp only [process_instruction, List.isEmpty_cons, Bool.false_eq_true, if_false,
        List.getElem?_cons_zero, Option.bind_eq_bind, Option.some_bind,
        List.drop_succ_cons, List.drop_zero]
      rfl
    }
  · obtain ⟨m, rfl⟩ : ∃ m, d = m + 36 := ⟨d - 36, by omega⟩
    simp only [process_instruction, List.isEmpty_cons, Bool.false_eq_true, if_false,
      List.getElem?_cons_zero, Option.bind_eq_bind, Option.some_bind,
      List.drop_succ_cons, List.drop_zero]
    rfl

/-- C3 witness: discriminator 13 with a nonempty payload and no accounts
is rejected with the unknown-opcode error. -/
theorem unknown_discriminator_rejected_witness :
    ((13 : Nat) < 256 ∧ ¬(13 : Nat) ≤ 12 ∧ ¬(20 ≤ (13 : Nat) ∧ (13 : Nat) ≤ 35)) ∧
    process_instruction okOracle [] [13, 1, 2] =
      some (Except.error ProgramError.invalidInstructionData, [], []) :=
  ⟨⟨by decide, by decide, by decide⟩,
    unknown_discriminator_rejected okOracle [] 13 [1, 2] (by decide) (by decide)
      (by decide)⟩

/-- C4: every dispatch outcome factors through validation: either the
external primitive is never invoked — the trace is empty, the accounts
come back untouched and the result is success or one of the four
validation error codes — or exactly one invocation is made, on the slice
of the accounts handed to the handler, and the dispatch result is the
result of the primitive verbatim; so a failure produced by validation
can never coexist with an invocation or a state change. -/
theorem validation_failures_precede_invocation (invoke : Oracle)
    (accounts : Accounts) (buf : List Nat) :
    (∃ r, process_instruction invoke accounts buf = some (r, [], accounts) ∧
      ValidationResult r) ∨
    (∃ ix signers sub rest, accounts = sub ++ rest ∧
      process_instruction invoke accounts buf =
        some ((invoke ix signers sub).1, [ix], (invoke ix signers sub).2 ++ rest)) :=
  dispatch_factor invoke accounts buf

/-- C5: the little-endian u64 decode used by the balance-transfer opcode
is the two-sided inverse of little-endian encoding, and dispatching
buffer 1 followed by the 8 little-endian bytes of x records an
invocation whose lamports argument is exactly x. -/
theorem transfer_payload_le_roundtrip :
    (∀ x : Nat, x < 2 ^ 64 → u64FromLeBytes (u64ToLeBytes x) = x) ∧
    (∀ l : List Nat, l.length = 8 → (∀ b ∈ l, b < 256) →
      u64ToLeBytes (u64FromLeBytes l) = l) ∧
    (∀ x : Nat, x < 2 ^ 64 → ∀ (invoke : Oracle) (a0 a1 : AccountView)
      (rest : Accounts), a0.is_signer = true → a0.is_writable = true →
      a1.is_writable = true →
      (process_instruction invoke (a0 :: a1 :: rest) (1 :: u64ToLeBytes x)).map
          (fun out => out.2.1) =
        some [Invocation.transferIx a0 a1 x]) := by
  refine ⟨u64_roundtrip_decode_encode, u64_roundtrip_encode_decode, ?_⟩
  intro x hx invoke a0 a1 rest h0 h1 h2
  rw [dispatch_transfer_reaches invoke a0 a1 rest _ (by simp [u64ToLeBytes]) h0 h1 h2]
  rw [show (u64ToLeBytes x).take 8 = u64ToLeBytes x from by simp [u64ToLeBytes]]
  rw [u64_roundtrip_decode_encode x hx]
  rfl

/-- C5 witness: the value 77777 round-trips through encode and decode,
the bytes 1 to 8 round-trip through decode and encode, and dispatching
its encoding records lamports 77777. -/
theorem transfer_payload_le_roundtrip_witness :
    u64FromLeBytes (u64ToLeBytes 77777) = 77777 ∧
    u64ToLeBytes (u64FromLeBytes [1, 2, 3, 4, 5, 6, 7, 8]) =
      [1, 2, 3, 4, 5, 6, 7, 8] ∧
    (process_instruction okOracle [signerWritableAcct, writableAcct]
        (1 :: u64ToLeBytes 77777)).map (fun out => out.2.1) =
      some [Invocation.transferIx signerWritableAcct writableAcct 77777] :=
  ⟨transfer_payload_le_roundtrip.1 77777 (by norm_num),
   transfer_payload_le_roundtrip.2.1 [1, 2, 3, 4, 5, 6, 7, 8] (by decide) (by decide),
   transfer_payload_le_roundtrip.2.2 77777 (by norm_num) okOracle signerWritableAcct
     writableAcct [] rfl rfl rfl⟩

/-- C6: with account 0 signer and writable and account 1 writable, the
buffer 1 followed by the little-endian bytes of the amount passes every
check and reaches the primitive with the decoded amount; the dispatch
result and final account state are those of the primitive. -/
theorem transfer_end_to_end (invoke : Oracle) (amount : Nat) (a0 a1 : AccountView)
    (rest : Accounts) (hx : amount < 2 ^ 64) (h0 : a0.is_signer = true)
    (h1 : a0.is_writable = true) (h2 : a1.is_writable = true) :
    process_instruction invoke (a0 :: a1 :: rest) (1 :: u64ToLeBytes amount) =
      some ((invoke (Invocation.transferIx a0 a1 amount) [] (a0 :: a1 :: rest)).1,
        [Invocation.transferIx a0 a1 amount],
        (invoke (Invocation.transferIx a0 a1 amount) [] (a0 :: a1 :: rest)).2) := by
  rw [dispatch_transfer_reaches invoke a0 a1 rest _ (by simp [u64ToLeBytes]) h0 h1 h2]
  rw [show (u64ToLeBytes amount).take 8 = u64ToLeBytes amount from by
    simp [u64ToLeBytes]]
  rw [u64_roundtrip_decode_encode amount hx]
  rfl

/-- C6 witness: transferring 5 lamports with a signer-writable source and
a writable destination reaches the primitive and succeeds under the
trivial oracle. -/
theorem transfer_end_to_end_witness :
    (5 : Nat) < 2 ^ 64 ∧
    process_instruction okOracle [signerWritableAcct, writableAcct]
        (1 :: u64ToLeBytes 5) =
      some (Except.ok (),
        [Invocation.transferIx signerWritableAcct writableAcct 5],
        [signerWritableAcct, writableAcct]) :=
  ⟨by norm_num,
    transfer_end_to_end okOracle 5 signerWritableAcct writableAcct []
      (by norm_num) rfl rfl rfl⟩

/-- C7: capability checks short-circuit in the per-opcode order: for the
balance-transfer opcode with two accounts whose first is neither signer
nor writable the reported failure is always MissingSignature (signer
checked first), and for the value-transfer-checked opcode with four
accounts whose first is not writable and whose fourth is not a signer
the reported failure is always AccountNotWritable (encoded as
InvalidAccountData; writable at index 0 checked first). -/
theorem capability_checks_short_circuit :
    (∀ (invoke : Oracle) (payload : List Nat) (a0 a1 : AccountView),
      8 ≤ payload.length → a0.is_signer = false → a0.is_writable = false →
      process_instruction invoke [a0, a1] (1 :: payload) =
        some (Except.error ProgramError.missingRequiredSignature, [], [a0, a1])) ∧
    (∀ (invoke : Oracle) (payload : List Nat) (a0 a1 a2 a3 : AccountView),
      9 ≤ payload.length → a0.is_writable = false → a3.is_signer = false →
      process_instruction invoke [a0, a1, a2, a3] (31 :: payload) =
        some (Except.error ProgramError.invalidAccountData, [],
          [a0, a1, a2, a3])) := by
  constructor
  · intro invoke payload a0 a1 hlen h0 h1
    simp only [process_instruction, List.isEmpty_cons, Bool.false_eq_true, if_false,
      List.getElem?_cons_zero, Option.bind_eq_bind, Option.some_bind,
      List.drop_succ_cons, List.drop_zero]
    rw [if_neg (by omega)]
    unfold u64Read
    rw [if_pos hlen]
    simp only [Option.bind_eq_bind, Option.some_bind]
    unfold process_transfer
    rw [if_neg (by simp)]
    simp [h0]
  · intro invoke payload a0 a1 a2 a3 hlen h0 h3
    simp only [process_instruction, List.isEmpty_cons, Bool.false_eq_true, if_false,
      List.getElem?_cons_zero, Option.bind_eq_bind, Option.some_bind,
      List.drop_succ_cons, List.drop_zero]
    rw [if_neg (by omega)]
    unfold u64Read
    rw [if_pos (by omega : 8 ≤ payload.length),
      List.getElem?_eq_getElem (by omega : 8 < payload.length)]
    simp only [Option.bind_eq_bind, Option.some_bind]
    unfold process_transfer_checked
    rw [if_neg (by simp)]
    simp [h0]

/-- C7 witness: concrete 8-byte and 9-byte payloads with the flag
patterns of the claim produce MissingSignature and InvalidAccountData
respectively. -/
theorem capability_checks_short_circuit_witness :
    process_instruction okOracle [plainAcct, writableAcct]
        (1 :: List.replicate 8 0) =
      some (Except.error ProgramError.missingRequiredSignature, [],
        [plainAcct, writableAcct]) ∧
    process_instruction okOracle [plainAcct, writableAcct, writableAcct, plainAcct]
        (31 :: List.replicate 9 0) =
      some (Except.error ProgramError.invalidAccountData, [],
        [plainAcct, writableAcct, writableAcct, plainAcct]) :=
  ⟨capability_checks_short_circuit.1 okOracle (List.replicate 8 0) plainAcct
      writableAcct (by decide) rfl rfl,
   capability_checks_short_circuit.2 okOracle (List.replicate 9 0) plainAcct
      writableAcct writableAcct plainAcct (by decide) rfl rfl⟩

/-- C8: for the set-authority opcode, a first payload byte outside the
set 0 to 3 is rejected with the invalid-field-value error (encoded as
InvalidInstructionData), for every remaining payload, account list and
oracle. -/
theorem set_authority_invalid_selector (invoke : Oracle) (accounts : Accounts)
    (sel : Nat) (tail : List Nat) (hsel : 4 ≤ sel) :
    process_instruction invoke accounts (25 :: sel :: tail) =
      some (Except.error ProgramError.invalidInstructionData, [], accounts) := by
  obtain ⟨m, rfl⟩ : ∃ m, sel = m + 4 := ⟨sel - 4, by omega⟩
  simp only [process_instruction, List.isEmpty_cons, Bool.false_eq_true, if_false,
    List.getElem?_cons_zero, Option.bind_eq_bind, Option.some_bind,
    List.drop_succ_cons, List.drop_zero]
  rfl

/-- C8 witness: selector byte 7 is rejected with InvalidInstructionData
even with no accounts. -/
theorem set_authority_invalid_selector_witness :
    (4 : Nat) ≤ 7 ∧
    process_instruction okOracle [] [25, 7] =
      some (Except.error ProgramError.invalidInstructionData, [], []) :=
  ⟨by decide, set_authority_invalid_selector okOracle [] 7 [] (by decide)⟩

/-- C9: for the set-authority opcode with a valid selector and accounts
passing the capability checks, the optional new-authority argument of
the recorded invocation is present exactly when the payload has at least
33 bytes, in which case it is payload bytes 1 to 32 inclusive; shorter
payloads (down to the selector alone) yield an absent new authority, not
an error. -/
theorem set_authority_optional_new_authority (invoke : Oracle)
    (a0 a1 : AccountView) (rest : Accounts) (b : Nat) (tail : List Nat)
    (hb : b < 4) (h0 : a0.is_writable = true) (h1 : a1.is_signer = true) :
    ∃ ty : AuthorityType,
      process_instruction invoke (a0 :: a1 :: rest) (25 :: b :: tail) =
        some (runInvoke invoke
          (Invocation.setAuthorityIx a0 a1 ty
            (if 33 ≤ (b :: tail).length then some (tail.take 32) else none)) []
          (a0 :: a1 :: rest)) :=
  dispatch_set_authority_decode invoke a0 a1 rest b tail hb h0 h1

/-- C9 witness: selector 0 with a 32-byte trailing field yields a present
new authority equal to those 32 bytes. -/
theorem set_authority_optional_new_authority_witness :
    (0 : Nat) < 4 ∧
    (∃ ty : AuthorityType,
      process_instruction okOracle [writableAcct, signerWritableAcct]
          (25 :: 0 :: List.replicate 32 9) =
        some (runInvoke okOracle
          (Invocation.setAuthorityIx writableAcct signerWritableAcct ty
            (if 33 ≤ ((0 : Nat) :: List.replicate 32 9).length then
              some ((List.replicate 32 9).take 32) else none)) []
          [writableAcct, signerWritableAcct])) :=
  ⟨by decide,
    set_authority_optional_new_authority okOracle writableAcct signerWritableAcct
      [] 0 (List.replicate 32 9) (by decide) rfl rfl⟩

/-- C10: the dispatcher is total: on every oracle, account list and
buffer it returns a value (success or typed failure) and never takes the
out-of-bounds-read path, which in this embedding would surface as none. -/
theorem dispatch_total (invoke : Oracle) (accounts : Accounts) (buf : List Nat) :
    (process_instruction invoke accounts buf).isSome = true := by
  rcases dispatch_factor invoke accounts buf with ⟨r, he, hv⟩ |
    ⟨ix, sg, sub, rest, hs, he⟩ <;> simp [he]

end Pinocchio
